import Mathlib

/-!
Verification development for the BrickVerse game-recommendation engine.

The TypeScript source is shallowly embedded: TS numbers that only ever hold
exact configuration values or metric counts are modelled as `ℚ`, `ℤ` or `ℕ`;
real-valued scoring signals (which use `Math.sqrt`, `Math.log`, `Math.exp`)
are modelled over `ℝ`.  `Map`s keyed by genre id are modelled as association
lists, `Set`s as lists with membership, the system clock as an explicit
`now : ℤ` (milliseconds) parameter, and the async data-source interfaces as
records of pure functions.  JavaScript's `Array.prototype.sort` with the
comparator `(a, b) => b.score - a.score` is a stable sort placing higher
scores first; it is modelled by the stable descending insertion sort
`sortDescBy` below.
-/

namespace GameRec

inductive AgeBand
  | UNDER_9
  | AGE_9_TO_12
  | AGE_13_PLUS
deriving DecidableEq

inductive Platform
  | PC
  | MOBILE
  | VR
  | CONSOLE
deriving DecidableEq

inductive GameFeature
  | VOICE_CHAT
  | TEXT_CHAT
  | MULTIPLAYER
  | SINGLE_PLAYER
  | LOW_INTENSITY
deriving DecidableEq

abbrev GenreId := Nat

abbrev GameId := String

/-- `GenreVector = Map<GenreId, number>`: association list of genre id / weight. -/
abbrev GenreVector := List (GenreId × ℚ)

structure Game where
  gameId : GameId
  minAgeBand : AgeBand
  moderationScore : ℚ
  releaseDate : ℤ
  creationDate : ℤ
  isSponsored : Bool
  sponsoredAmount : ℚ
  genreVector : GenreVector
  features : List GameFeature
  playsByAgeBand : AgeBand → ℕ
  totalSessions : ℕ
  uniquePlayers : ℕ
  currentSessions : ℕ
  totalRevenue : ℕ
  likes : ℕ
  dislikes : ℕ
  totalPlays : ℕ

structure UserContext where
  userId : String
  ageBand : AgeBand
  platform : Platform
  genreVector : GenreVector

structure UserHistory where
  longPlayGames : List GameId
  likedGames : List GameId
  favouritedGames : List GameId
  heavilyPlayed : List GameId

structure ScoreWeights where
  genreAffinity : ℚ
  ageBandPopularity : ℚ
  engagementSimilarity : ℚ
  favouriteAffinity : ℚ
  communityRating : ℚ
  recencyBoost : ℚ
  sponsoredBoost : ℚ
  repetitionPenalty : ℚ
  creationRecencyPenalty : ℚ
deriving DecidableEq

structure DiversityRules where
  minGenres : ℕ
  maxPerGenre : ℕ
  requireLowIntensity : Bool
  avoidAllMultiplayer : Bool
deriving DecidableEq

structure RecommendationConfig where
  weights : ScoreWeights
  moderationThreshold : ℚ
  recencyDecayDays : ℚ
  creationGracePeriodDays : ℤ
  creationPenaltyMaxDays : ℤ
  sponsoredAmountMultiplier : ℚ
  maxSponsoredBoost : ℚ
  maxResults : ℕ
  maxSponsoredPerList : ℕ
  diversityRules : DiversityRules
deriving DecidableEq

structure ScoreBreakdown where
  genreAffinity : ℝ
  ageBandPopularity : ℝ
  engagementSimilarity : ℝ
  favouriteAffinity : ℝ
  communityRating : ℝ
  recencyBoost : ℝ
  sponsoredBoost : ℝ
  repetitionPenalty : ℝ
  creationRecencyPenalty : ℝ

structure ScoredGame where
  game : Game
  score : ℝ
  breakdown : ScoreBreakdown

structure RecommendationBucket where
  id : String
  title : String
  games : List GameId
deriving DecidableEq

inductive ChartType
  | TOP_TRENDING
  | UP_AND_COMING
  | TOP_PLAYING_NOW
  | TOP_REPLAYED
  | TOP_EARNING
  | TOP_RATED
  | TRENDING_IN_GENRE
deriving DecidableEq

structure ChartEntry where
  gameId : GameId
  score : ℝ
  rank : ℕ

structure GameMetrics where
  playsLast7Days : ℕ
  playsPrev7Days : ℕ
  playsLast30Days : ℕ
  totalSessions : ℕ
  uniquePlayers : ℕ
  currentSessions : ℕ
  totalRevenue : ℕ
  likes : ℕ
  dislikes : ℕ
  favourites : ℕ
  totalPlays : ℕ

/-! ## EligibilityFilter (eligibilityFilter.ts) -/

structure EligibilityConfig where
  moderationThreshold : ℚ
deriving DecidableEq

/-- The `ageBandOrder` table in `EligibilityFilter.isAgeBandEligible`. -/
def ageBandOrder : AgeBand → ℕ
  | .UNDER_9 => 0
  | .AGE_9_TO_12 => 1
  | .AGE_13_PLUS => 2

/-- `EligibilityFilter.isAgeBandEligible`. -/
def isAgeBandEligible (game : Game) (userAgeBand : AgeBand) : Bool :=
  ageBandOrder game.minAgeBand ≤ ageBandOrder userAgeBand

/-- `EligibilityFilter.passesModeration`. -/
def passesModeration (config : EligibilityConfig) (game : Game) : Bool :=
  config.moderationThreshold ≤ game.moderationScore

/-- `EligibilityFilter.checkFeatureRestrictions`. -/
def checkFeatureRestrictions (game : Game) (userAgeBand : AgeBand) : Bool :=
  if userAgeBand ≠ AgeBand.AGE_13_PLUS then
    if GameFeature.VOICE_CHAT ∈ game.features then false else true
  else true

/-- `EligibilityFilter.isEligible`. -/
def isEligible (config : EligibilityConfig) (game : Game) (userContext : UserContext) : Bool :=
  isAgeBandEligible game userContext.ageBand &&
  passesModeration config game &&
  checkFeatureRestrictions game userContext.ageBand

/-- `EligibilityFilter.filterEligible`: the loop that `continue`s over each
failed check and pushes passing games in input order. -/
def filterEligible (config : EligibilityConfig) :
    List Game → UserContext → List Game
  | [], _ => []
  | game :: rest, userContext =>
    if !isAgeBandEligible game userContext.ageBand then
      filterEligible config rest userContext
    else if !passesModeration config game then
      filterEligible config rest userContext
    else if !checkFeatureRestrictions game userContext.ageBand then
      filterEligible config rest userContext
    else
      game :: filterEligible config rest userContext

theorem filterEligible_eq_filter (config : EligibilityConfig)
    (items : List Game) (userContext : UserContext) :
    filterEligible config items userContext =
      items.filter (fun g => isEligible config g userContext) := by
  induction items with
  | nil => rfl
  | cons g rest ih =>
    by_cases h1 : isAgeBandEligible g userContext.ageBand <;>
      by_cases h2 : passesModeration config g <;>
        by_cases h3 : checkFeatureRestrictions g userContext.ageBand <;>
          simp [filterEligible, List.filter, isEligible, h1, h2, h3, ih]

theorem mem_filterEligible {config : EligibilityConfig}
    {items : List Game} {userContext : UserContext} {g : Game}
    (h : g ∈ filterEligible config items userContext) :
    g ∈ items ∧ isEligible config g userContext = true := by
  rw [filterEligible_eq_filter] at h
  exact ⟨List.mem_of_mem_filter h, by simpa using List.of_mem_filter h⟩

/-- **C2.** `isEligible` returns `true` iff the age gate, moderation gate and
feature gate all hold, and `filterEligible` returns exactly the sublist of
eligible items, in input order (as a total function: no error on rejection). -/
theorem isEligible_iff_and_filterEligible_eq_filter
    (config : EligibilityConfig) (game : Game) (userContext : UserContext)
    (items : List Game) :
    (isEligible config game userContext = true ↔
      (ageBandOrder game.minAgeBand ≤ ageBandOrder userContext.ageBand ∧
       config.moderationThreshold ≤ game.moderationScore ∧
       (userContext.ageBand = AgeBand.AGE_13_PLUS ∨
        GameFeature.VOICE_CHAT ∉ game.features))) ∧
    filterEligible config items userContext =
      items.filter (fun g => isEligible config g userContext) := by
  refine ⟨?_, filterEligible_eq_filter config items userContext⟩
  constructor
  · intro h
    simp only [isEligible, Bool.and_eq_true, isAgeBandEligible, passesModeration,
      checkFeatureRestrictions, decide_eq_true_eq] at h
    obtain ⟨⟨h1, h2⟩, h3⟩ := h
    refine ⟨h1, h2, ?_⟩
    by_cases hb : userContext.ageBand = AgeBand.AGE_13_PLUS
    · exact Or.inl hb
    · right
      intro hv
      simp [hb, hv] at h3
  · rintro ⟨h1, h2, h3⟩
    simp only [isEligible, Bool.and_eq_true, isAgeBandEligible, passesModeration,
      checkFeatureRestrictions, decide_eq_true_eq]
    refine ⟨⟨h1, h2⟩, ?_⟩
    rcases h3 with hb | hv
    · simp [hb]
    · by_cases hb : userContext.ageBand = AgeBand.AGE_13_PLUS <;> simp [hb, hv]

/-! ## JavaScript stable sort with comparator `(a, b) => b.score - a.score`

`Array.prototype.sort` is stable and, with that comparator, places larger
scores first; equal scores keep their input order.  `sortDescBy f` is the
stable descending insertion sort w.r.t. the key `f`. -/

open Classical in
/-- Insert `a` into `l` before the first element whose key is ≤ `f a`. -/
noncomputable def insertDescBy {α : Type} (f : α → ℝ) (a : α) : List α → List α
  | [] => [a]
  | b :: l => if f b ≤ f a then a :: b :: l else b :: insertDescBy f a l

/-- Stable descending sort by key `f`. -/
noncomputable def sortDescBy {α : Type} (f : α → ℝ) : List α → List α
  | [] => []
  | a :: l => insertDescBy f a (sortDescBy f l)

theorem insertDescBy_perm {α : Type} (f : α → ℝ) (a : α) (l : List α) :
    List.Perm (insertDescBy f a l) (a :: l) := by
  induction l with
  | nil => rfl
  | cons b l ih =>
    rw [insertDescBy]
    split
    · rfl
    · exact ((ih.cons b).trans (List.Perm.swap a b l))

theorem sortDescBy_perm {α : Type} (f : α → ℝ) (l : List α) :
    List.Perm (sortDescBy f l) l := by
  induction l with
  | nil => rfl
  | cons a l ih => exact (insertDescBy_perm f a (sortDescBy f l)).trans (ih.cons a)

theorem mem_sortDescBy {α : Type} {f : α → ℝ} {l : List α} {x : α}
    (h : x ∈ sortDescBy f l) : x ∈ l :=
  (sortDescBy_perm f l).mem_iff.mp h

theorem length_sortDescBy {α : Type} (f : α → ℝ) (l : List α) :
    (sortDescBy f l).length = l.length :=
  (sortDescBy_perm f l).length_eq

theorem insertDescBy_pairwise {α : Type} {f : α → ℝ} {a : α} {l : List α}
    (h : l.Pairwise (fun x y => f y ≤ f x)) :
    (insertDescBy f a l).Pairwise (fun x y => f y ≤ f x) := by
  induction l with
  | nil => simp [insertDescBy]
  | cons b l ih =>
    rw [insertDescBy]
    rcases List.pairwise_cons.mp h with ⟨hb, hl⟩
    split
    · rename_i hba
      exact List.pairwise_cons.mpr
        ⟨fun y hy => by
          rcases List.mem_cons.mp hy with rfl | hy
          · exact hba
          · exact le_trans (hb y hy) hba, h⟩
    · rename_i hba
      refine List.pairwise_cons.mpr ⟨fun y hy => ?_, ih hl⟩
      rcases List.mem_cons.mp ((insertDescBy_perm f a l).mem_iff.mp hy) with rfl | hy
      · exact le_of_lt (lt_of_not_le hba)
      · exact hb y hy

theorem sortDescBy_pairwise {α : Type} (f : α → ℝ) (l : List α) :
    (sortDescBy f l).Pairwise (fun x y => f y ≤ f x) := by
  induction l with
  | nil => simp [sortDescBy]
  | cons a l ih => exact insertDescBy_pairwise ih

open Classical in
/-- The elements of `l` whose key equals `s`, in order. -/
noncomputable def filterKeyEq {α : Type} (f : α → ℝ) (s : ℝ) : List α → List α
  | [] => []
  | a :: l => if f a = s then a :: filterKeyEq f s l else filterKeyEq f s l

theorem filterKeyEq_insertDescBy {α : Type} (f : α → ℝ) (s : ℝ) (a : α) (l : List α) :
    filterKeyEq f s (insertDescBy f a l) =
      if f a = s then a :: filterKeyEq f s l else filterKeyEq f s l := by
  induction l with
  | nil => simp [insertDescBy, filterKeyEq]
  | cons b l ih =>
    rw [insertDescBy]
    by_cases hba : f b ≤ f a
    · simp only [if_pos hba]
      by_cases has : f a = s
      · simp [filterKeyEq, has]
      · simp [filterKeyEq, has]
    · simp only [if_neg hba]
      by_cases has : f a = s
      · have hbs : ¬ f b = s := by
          intro hb
          exact hba (le_of_eq (hb.trans has.symm))
        simp [filterKeyEq, hbs, ih, has]
      · by_cases hbs : f b = s <;> simp [filterKeyEq, hbs, ih, has]

/-- Stability of `sortDescBy`: within each equal-key class the output order is
the input order. -/
theorem filterKeyEq_sortDescBy {α : Type} (f : α → ℝ) (s : ℝ) (l : List α) :
    filterKeyEq f s (sortDescBy f l) = filterKeyEq f s l := by
  induction l with
  | nil => rfl
  | cons a l ih =>
    rw [sortDescBy, filterKeyEq_insertDescBy]
    by_cases has : f a = s <;> simp [filterKeyEq, has, ih]

/-! ## ScoringEngine (scoringEngine.ts) -/

/-- Milliseconds per day, `1000 * 60 * 60 * 24`. -/
def msPerDay : ℤ := 86400000

/-- `Math.floor((now - date) / msPerDay)` on millisecond timestamps. -/
def daysSince (now date : ℤ) : ℤ := (now - date).fdiv msPerDay

/-- `Map.get(g) || 0` on a genre vector. -/
def vecGet (vec : GenreVector) (g : GenreId) : ℚ := (vec.lookup g).getD 0

open Classical in
/-- `ScoringEngine.cosineSimilarity`. -/
noncomputable def cosineSimilarity (vec1 vec2 : GenreVector) : ℝ :=
  let allGenres := (vec1.map Prod.fst ++ vec2.map Prod.fst).dedup
  let dotProduct : ℚ := (allGenres.map (fun g => vecGet vec1 g * vecGet vec2 g)).sum
  let magnitude1 : ℝ :=
    Real.sqrt ((allGenres.map (fun g => vecGet vec1 g * vecGet vec1 g)).sum : ℚ)
  let magnitude2 : ℝ :=
    Real.sqrt ((allGenres.map (fun g => vecGet vec2 g * vecGet vec2 g)).sum : ℚ)
  if magnitude1 = 0 ∨ magnitude2 = 0 then 0
  else (dotProduct : ℝ) / (magnitude1 * magnitude2)

/-- `ScoringEngine.computeGenreAffinity`. -/
noncomputable def computeGenreAffinity (userVector gameVector : GenreVector) : ℝ :=
  cosineSimilarity userVector gameVector

/-- `ScoringEngine.computeAgeBandPopularity`: `Math.log(1 + plays)`. -/
noncomputable def computeAgeBandPopularity (game : Game) (ageBand : AgeBand) : ℝ :=
  Real.log (1 + (game.playsByAgeBand ageBand : ℝ))

/-- `ScoringEngine.averageSimilarityToList` (placeholder in the source:
`0.3` for a non-empty history list, else `0`). -/
noncomputable def averageSimilarityToList (_game : Game) (gameIds : List GameId) : ℝ :=
  if gameIds.length > 0 then 3 / 10 else 0

/-- `ScoringEngine.computeEngagementSimilarity`. -/
noncomputable def computeEngagementSimilarity (game : Game) (userHistory : UserHistory) : ℝ :=
  (averageSimilarityToList game userHistory.longPlayGames +
   averageSimilarityToList game userHistory.likedGames) / 2

/-- `ScoringEngine.computeFavouriteAffinity`: 50% stronger than similarity. -/
noncomputable def computeFavouriteAffinity (game : Game) (userHistory : UserHistory) : ℝ :=
  averageSimilarityToList game userHistory.favouritedGames * (3 / 2)

/-- `ScoringEngine.computeCommunityRating`. -/
noncomputable def computeCommunityRating (game : Game) : ℝ :=
  let totalReactions := game.likes + game.dislikes
  if totalReactions = 0 then 0
  else
    let ratio : ℝ := ((game.likes : ℝ) - (game.dislikes : ℝ)) / (totalReactions : ℝ)
    let confidence : ℝ := min 1 (Real.log (1 + (totalReactions : ℝ)) / Real.log 1000)
    ratio * confidence

/-- `ScoringEngine.computeRecencyBoost`. -/
noncomputable def computeRecencyBoost (config : RecommendationConfig)
    (game : Game) (now : ℤ) : ℝ :=
  Real.exp (-(daysSince now game.releaseDate : ℝ) / (config.recencyDecayDays : ℝ))

/-- `ScoringEngine.computeSponsoredBoost`. -/
noncomputable def computeSponsoredBoost (config : RecommendationConfig) (game : Game) : ℝ :=
  if !game.isSponsored || game.sponsoredAmount ≤ 0 then 0
  else
    let rawBoost : ℚ := game.sponsoredAmount * config.sponsoredAmountMultiplier
    min (rawBoost : ℝ) (config.maxSponsoredBoost : ℝ)

/-- `ScoringEngine.computeRepetitionPenalty`. -/
noncomputable def computeRepetitionPenalty (game : Game) (userHistory : UserHistory) : ℝ :=
  if game.gameId ∈ userHistory.heavilyPlayed then 1 else 0

/-- `ScoringEngine.computeCreationRecencyPenalty`. -/
noncomputable def computeCreationRecencyPenalty (config : RecommendationConfig)
    (game : Game) (now : ℤ) : ℝ :=
  let daysSinceCreation := daysSince now game.creationDate
  if daysSinceCreation < config.creationGracePeriodDays then 1
  else if config.creationPenaltyMaxDays ≤ daysSinceCreation then 0
  else
    let decayRange := config.creationPenaltyMaxDays - config.creationGracePeriodDays
    let daysInDecay := daysSinceCreation - config.creationGracePeriodDays
    1 - (daysInDecay : ℝ) / (decayRange : ℝ)

/-- One iteration of the `scoreGames` loop: breakdown plus weighted composite. -/
noncomputable def scoreOne (config : RecommendationConfig) (userContext : UserContext)
    (userHistory : UserHistory) (now : ℤ) (game : Game) : ScoredGame :=
  let breakdown : ScoreBreakdown :=
    { genreAffinity := computeGenreAffinity userContext.genreVector game.genreVector
      ageBandPopularity := computeAgeBandPopularity game userContext.ageBand
      engagementSimilarity := computeEngagementSimilarity game userHistory
      favouriteAffinity := computeFavouriteAffinity game userHistory
      communityRating := computeCommunityRating game
      recencyBoost := computeRecencyBoost config game now
      sponsoredBoost := computeSponsoredBoost config game
      repetitionPenalty := computeRepetitionPenalty game userHistory
      creationRecencyPenalty := computeCreationRecencyPenalty config game now }
  let score : ℝ :=
    (config.weights.genreAffinity : ℝ) * breakdown.genreAffinity +
    (config.weights.ageBandPopularity : ℝ) * breakdown.ageBandPopularity +
    (config.weights.engagementSimilarity : ℝ) * breakdown.engagementSimilarity +
    (config.weights.favouriteAffinity : ℝ) * breakdown.favouriteAffinity +
    (config.weights.communityRating : ℝ) * breakdown.communityRating +
    (config.weights.recencyBoost : ℝ) * breakdown.recencyBoost +
    (config.weights.sponsoredBoost : ℝ) * breakdown.sponsoredBoost -
    (config.weights.repetitionPenalty : ℝ) * breakdown.repetitionPenalty -
    (config.weights.creationRecencyPenalty : ℝ) * breakdown.creationRecencyPenalty
  { game := game, score := score, breakdown := breakdown }

/-- `ScoringEngine.scoreGames`: score every eligible game in order, then
`scoredGames.sort((a, b) => b.score - a.score)` (stable, descending). -/
noncomputable def scoreGames (config : RecommendationConfig) (eligibleGames : List Game)
    (userContext : UserContext) (userHistory : UserHistory) (now : ℤ) : List ScoredGame :=
  sortDescBy (fun sg => sg.score) ((eligibleGames.map (scoreOne config userContext userHistory now)))

theorem mem_scoreGames {config : RecommendationConfig} {eligibleGames : List Game}
    {userContext : UserContext} {userHistory : UserHistory} {now : ℤ} {sg : ScoredGame}
    (h : sg ∈ scoreGames config eligibleGames userContext userHistory now) :
    ∃ g ∈ eligibleGames, sg = scoreOne config userContext userHistory now g := by
  rcases List.mem_map.mp (mem_sortDescBy h) with ⟨g, hg, hsg⟩
  exact ⟨g, hg, hsg.symm⟩

/-! ## C3: sortedness and the (absent) identifier tie-break -/

/-- The ordering property claimed by the spec for `scoreItems` output:
non-increasing scores, equal scores in ascending item-identifier order. -/
def scoredSortedWithIdTieBreak (l : List ScoredGame) : Prop :=
  l.Pairwise (fun x y =>
    y.score ≤ x.score ∧ (x.score = y.score → x.game.gameId ≤ y.game.gameId))

/-- `DEFAULT_CONFIG` from `config.ts` (the 9-signal shape). -/
def defaultConfig : RecommendationConfig :=
  { weights :=
      { genreAffinity := 1
        ageBandPopularity := 8/10
        engagementSimilarity := 9/10
        favouriteAffinity := 12/10
        communityRating := 7/10
        recencyBoost := 5/10
        sponsoredBoost := 3/10
        repetitionPenalty := 2
        creationRecencyPenalty := 15/10 }
    moderationThreshold := 8/10
    recencyDecayDays := 90
    creationGracePeriodDays := 7
    creationPenaltyMaxDays := 30
    sponsoredAmountMultiplier := 1/1000
    maxSponsoredBoost := 2
    maxResults := 50
    maxSponsoredPerList := 3
    diversityRules :=
      { minGenres := 2
        maxPerGenre := 5
        requireLowIntensity := true
        avoidAllMultiplayer := true } }

/-- A minimal game record, varying only in its identifier. -/
def plainGame (id : GameId) : Game :=
  { gameId := id
    minAgeBand := .UNDER_9
    moderationScore := 1
    releaseDate := 0
    creationDate := 0
    isSponsored := false
    sponsoredAmount := 0
    genreVector := []
    features := []
    playsByAgeBand := fun _ => 0
    totalSessions := 0
    uniquePlayers := 0
    currentSessions := 0
    totalRevenue := 0
    likes := 0
    dislikes := 0
    totalPlays := 0 }

def plainContext : UserContext :=
  { userId := "user-1", ageBand := .AGE_9_TO_12, platform := .PC, genreVector := [] }

def emptyHistory : UserHistory :=
  { longPlayGames := [], likedGames := [], favouritedGames := [], heavilyPlayed := [] }

theorem scoreOne_plain_score_eq :
    (scoreOne defaultConfig plainContext emptyHistory 0 (plainGame "b")).score =
      (scoreOne defaultConfig plainContext emptyHistory 0 (plainGame "a")).score := rfl

theorem scoreGames_two_ties :
    scoreGames defaultConfig [plainGame "b", plainGame "a"] plainContext emptyHistory 0 =
      [scoreOne defaultConfig plainContext emptyHistory 0 (plainGame "b"),
       scoreOne defaultConfig plainContext emptyHistory 0 (plainGame "a")] := by
  rw [scoreGames, List.map, List.map, List.map, sortDescBy, sortDescBy, sortDescBy,
    insertDescBy, insertDescBy, if_pos (le_of_eq scoreOne_plain_score_eq.symm)]

/-- **C3 counterexample.** With two tied items whose identifiers arrive in
descending order, `scoreGames` keeps the input order (`"b"` before `"a"`), so
equal-score entries are NOT in ascending identifier order. -/
theorem scoreGames_no_id_tie_break :
    ¬ scoredSortedWithIdTieBreak
        (scoreGames defaultConfig [plainGame "b", plainGame "a"] plainContext emptyHistory 0) := by
  rw [scoreGames_two_ties]
  intro h
  rcases List.pairwise_cons.mp h with ⟨hrel, -⟩
  have h2 := (hrel _ (List.mem_cons_self _ _)).2 scoreOne_plain_score_eq.symm
  have hba : ("b" : String) ≤ "a" := h2
  rw [String.le_iff_toList_le] at hba
  revert hba
  decide

/-- **C3 (amended).** `scoreGames` output is sorted by composite score in
non-increasing order; there is no identifier tie-break — instead the sort is
stable, so entries with equal scores appear in their pre-sort (input) order. -/
theorem scoreGames_sorted_and_stable (config : RecommendationConfig)
    (eligibleGames : List Game) (userContext : UserContext)
    (userHistory : UserHistory) (now : ℤ) (s : ℝ) :
    (scoreGames config eligibleGames userContext userHistory now).Pairwise
      (fun x y => y.score ≤ x.score) ∧
    filterKeyEq (fun sg => sg.score) s
        (scoreGames config eligibleGames userContext userHistory now) =
      filterKeyEq (fun sg => sg.score) s
        (eligibleGames.map (scoreOne config userContext userHistory now)) :=
  ⟨sortDescBy_pairwise _ _, filterKeyEq_sortDescBy _ _ _⟩

/-! ## DiversityPass (diversityPass.ts) -/

/-- The genre ids (`Map` keys) of a genre vector. -/
def vecKeys (vec : GenreVector) : List GenreId := vec.map Prod.fst

/-- `DiversityPass.violatesMaxPerGenre`: some declared genre already has
`maxPerGenre` admitted occurrences. -/
def violatesMaxPerGenre (config : RecommendationConfig) (scoredGame : ScoredGame)
    (genreCounts : GenreId → ℕ) : Bool :=
  scoredGame.game.genreVector.any
    (fun p => config.diversityRules.maxPerGenre ≤ genreCounts p.1)

/-- `DiversityPass.violatesAllMultiplayer`. -/
def violatesAllMultiplayer (config : RecommendationConfig) (scoredGame : ScoredGame)
    (diversified : List ScoredGame) : Bool :=
  if !config.diversityRules.avoidAllMultiplayer then false
  else if GameFeature.MULTIPLAYER ∈ scoredGame.game.features then
    (diversified.all (fun sg => decide (GameFeature.MULTIPLAYER ∈ sg.game.features))) &&
      decide (0 < diversified.length)
  else false

/-- `DiversityPass.violatesDiversityRules`. -/
def violatesDiversityRules (config : RecommendationConfig) (scoredGame : ScoredGame)
    (diversified : List ScoredGame) (genreCounts : GenreId → ℕ) : Bool :=
  violatesMaxPerGenre config scoredGame genreCounts ||
  violatesAllMultiplayer config scoredGame diversified

/-- `DiversityPass.updateGenreCounts`: bump the counter of every declared genre. -/
def updateGenreCounts (scoredGame : ScoredGame) (genreCounts : GenreId → ℕ) : GenreId → ℕ :=
  scoredGame.game.genreVector.foldl
    (fun c p => fun g => if g = p.1 then c p.1 + 1 else c g) genreCounts

/-- The `for`-loop of `DiversityPass.diversify`: greedy admission with early
stop at `maxResults`. -/
def diversifyGo (config : RecommendationConfig) :
    List ScoredGame → List ScoredGame → (GenreId → ℕ) → List ScoredGame
  | [], diversified, _ => diversified
  | scoredGame :: rest, diversified, genreCounts =>
    if violatesDiversityRules config scoredGame diversified genreCounts then
      diversifyGo config rest diversified genreCounts
    else if config.maxResults ≤ (diversified ++ [scoredGame]).length then
      diversified ++ [scoredGame]
    else
      diversifyGo config rest (diversified ++ [scoredGame])
        (updateGenreCounts scoredGame genreCounts)

/-- `DiversityPass.countUniqueGenres`. -/
def countUniqueGenres (diversified : List ScoredGame) : ℕ :=
  ((diversified.map (fun sg => vecKeys sg.game.genreVector)).flatten).dedup.length

/-- `DiversityPass.ensureMinimumRequirements`: the informational post-pass.
It only emits `console.warn` diagnostics, modelled as the returned list of
warning strings; it does not touch the diversified list. -/
def ensureMinimumRequirements (config : RecommendationConfig)
    (diversified : List ScoredGame) : List String :=
  (if countUniqueGenres diversified < config.diversityRules.minGenres then
      ["Warning: too few genres in recommendations"]
    else []) ++
  (if config.diversityRules.requireLowIntensity &&
      !(diversified.any (fun sg => decide (GameFeature.LOW_INTENSITY ∈ sg.game.features))) then
      ["Warning: no low-intensity game in recommendations"]
    else [])

/-- `DiversityPass.diversify` together with the diagnostics produced by the
post-pass. -/
def diversifyWithDiagnostics (config : RecommendationConfig)
    (sortedGames : List ScoredGame) : List ScoredGame × List String :=
  let diversified := diversifyGo config sortedGames [] (fun _ => 0)
  (diversified, ensureMinimumRequirements config diversified)

/-- `DiversityPass.diversify`: the list the caller receives. -/
def diversify (config : RecommendationConfig) (sortedGames : List ScoredGame) :
    List ScoredGame :=
  (diversifyWithDiagnostics config sortedGames).1

theorem mem_diversifyGo {config : RecommendationConfig} :
    ∀ {rest diversified : List ScoredGame} {genreCounts : GenreId → ℕ} {x : ScoredGame},
      x ∈ diversifyGo config rest diversified genreCounts →
      x ∈ diversified ∨ x ∈ rest
  | [], _, _, _, h => Or.inl h
  | sg :: rest, diversified, genreCounts, x, h => by
    rw [diversifyGo] at h
    split at h
    · rcases mem_diversifyGo h with hx | hx
      · exact Or.inl hx
      · exact Or.inr (List.mem_cons_of_mem _ hx)
    · split at h
      · rcases List.mem_append.mp h with hx | hx
        · exact Or.inl hx
        · exact Or.inr (List.mem_cons.mpr (Or.inl (List.mem_singleton.mp hx)))
      · rcases mem_diversifyGo h with hx | hx
        · rcases List.mem_append.mp hx with hx' | hx'
          · exact Or.inl hx'
          · exact Or.inr (List.mem_cons.mpr (Or.inl (List.mem_singleton.mp hx')))
        · exact Or.inr (List.mem_cons_of_mem _ hx)

theorem mem_diversify {config : RecommendationConfig} {sortedGames : List ScoredGame}
    {x : ScoredGame} (h : x ∈ diversify config sortedGames) : x ∈ sortedGames := by
  rcases mem_diversifyGo h with hx | hx
  · cases hx
  · exact hx

/-- Number of admitted items that declare genre `g`. -/
def countContaining (g : GenreId) (l : List ScoredGame) : ℕ :=
  (l.filter (fun sg => decide (g ∈ vecKeys sg.game.genreVector))).length

theorem updateGenreCounts_apply (scoredGame : ScoredGame) (genreCounts : GenreId → ℕ)
    (g : GenreId) :
    updateGenreCounts scoredGame genreCounts g =
      genreCounts g + (vecKeys scoredGame.game.genreVector).count g := by
  rw [updateGenreCounts, vecKeys]
  generalize scoredGame.game.genreVector = v
  induction v generalizing genreCounts with
  | nil => simp
  | cons p v ih =>
    rw [List.foldl_cons, ih]
    by_cases hg : g = p.1
    · subst hg
      simp [List.count_cons, Nat.add_comm, Nat.add_assoc, Nat.add_left_comm]
    · simp [hg, List.count_cons, Ne.symm hg]

theorem countContaining_append_singleton (g : GenreId) (l : List ScoredGame)
    (sg : ScoredGame) :
    countContaining g (l ++ [sg]) =
      countContaining g l + (if g ∈ vecKeys sg.game.genreVector then 1 else 0) := by
  rw [countContaining, countContaining, List.filter_append]
  by_cases hg : g ∈ vecKeys sg.game.genreVector <;> simp [hg]

theorem diversifyGo_genre_bound (config : RecommendationConfig) (g : GenreId) :
    ∀ (rest diversified : List ScoredGame) (genreCounts : GenreId → ℕ),
      countContaining g diversified ≤ genreCounts g →
      countContaining g diversified ≤ config.diversityRules.maxPerGenre →
      countContaining g (diversifyGo config rest diversified genreCounts) ≤
        config.diversityRules.maxPerGenre
  | [], _, _, _, h2 => h2
  | sg :: rest, diversified, genreCounts, h1, h2 => by
    rw [diversifyGo]
    split
    · exact diversifyGo_genre_bound config g rest diversified genreCounts h1 h2
    · rename_i hviol
      have hnomax : violatesMaxPerGenre config sg genreCounts = false := by
        have hor : violatesDiversityRules config sg diversified genreCounts = false := by
          simpa using hviol
        rw [violatesDiversityRules, Bool.or_eq_false_iff] at hor
        exact hor.1
      have hcount : ∀ p ∈ sg.game.genreVector, genreCounts p.1 < config.diversityRules.maxPerGenre := by
        have hall : ∀ (a : GenreId) (b : ℚ), (a, b) ∈ sg.game.genreVector →
            genreCounts a < config.diversityRules.maxPerGenre := by
          simpa [violatesMaxPerGenre, List.any_eq_false] using hnomax
        intro p hp
        exact hall p.1 p.2 (by simpa using hp)
      have hstep1 : countContaining g (diversified ++ [sg]) ≤ updateGenreCounts sg genreCounts g := by
        rw [countContaining_append_singleton, updateGenreCounts_apply]
        by_cases hg : g ∈ vecKeys sg.game.genreVector
        · have hc : 0 < (vecKeys sg.game.genreVector).count g := List.count_pos_iff.mpr hg
          simp only [hg, if_pos]
          omega
        · rw [List.count_eq_zero_of_not_mem hg]
          simp only [hg, if_neg, not_false_iff]
          omega
      have hstep2 : countContaining g (diversified ++ [sg]) ≤ config.diversityRules.maxPerGenre := by
        rw [countContaining_append_singleton]
        by_cases hg : g ∈ vecKeys sg.game.genreVector
        · rcases List.mem_map.mp hg with ⟨p, hp, hpg⟩
          have hlt := hcount p hp
          rw [hpg] at hlt
          have := le_trans h1 (le_of_lt hlt)
          simp only [hg, if_pos]
          omega
        · simpa [hg] using h2
      split
      · exact hstep2
      · exact diversifyGo_genre_bound config g rest _ _ hstep1 hstep2

theorem diversifyGo_length_bound (config : RecommendationConfig) :
    ∀ (rest diversified : List ScoredGame) (genreCounts : GenreId → ℕ),
      diversified.length < config.maxResults →
      (diversifyGo config rest diversified genreCounts).length ≤ config.maxResults
  | [], _, _, h => le_of_lt h
  | sg :: rest, diversified, genreCounts, h => by
    rw [diversifyGo]
    split
    · exact diversifyGo_length_bound config rest diversified genreCounts h
    · have hlen : (diversified ++ [sg]).length = diversified.length + 1 := by simp
      split
      · rw [hlen]
        omega
      · rename_i hbreak
        apply diversifyGo_length_bound
        omega

/-- **C4.** `diversify` returns at most `maxResults` items (under the spec's
config constraint `maxResults > 0`), never more than `maxPerGenre` items per
declared genre, and the minGenres/low-intensity post-pass never alters the
returned list (it only produces diagnostics). -/
theorem diversify_bounded (config : RecommendationConfig)
    (sortedGames : List ScoredGame) (g : GenreId)
    (hmax : 1 ≤ config.maxResults) :
    (diversify config sortedGames).length ≤ config.maxResults ∧
    countContaining g (diversify config sortedGames) ≤ config.diversityRules.maxPerGenre ∧
    (diversifyWithDiagnostics config sortedGames).1 =
      diversifyGo config sortedGames [] (fun _ => 0) := by
  refine ⟨?_, ?_, rfl⟩
  · exact diversifyGo_length_bound config sortedGames [] (fun _ => 0) hmax
  · exact diversifyGo_genre_bound config g sortedGames [] (fun _ => 0)
      (Nat.zero_le _) (Nat.zero_le _)

/-- Witness for C4 at a concrete configuration and input. -/
theorem diversify_bounded_witness :
    1 ≤ defaultConfig.maxResults ∧
    ((diversify defaultConfig
        [scoreOne defaultConfig plainContext emptyHistory 0 (plainGame "a")]).length ≤
          defaultConfig.maxResults ∧
     countContaining 1 (diversify defaultConfig
        [scoreOne defaultConfig plainContext emptyHistory 0 (plainGame "a")]) ≤
          defaultConfig.diversityRules.maxPerGenre ∧
     (diversifyWithDiagnostics defaultConfig
        [scoreOne defaultConfig plainContext emptyHistory 0 (plainGame "a")]).1 =
       diversifyGo defaultConfig
        [scoreOne defaultConfig plainContext emptyHistory 0 (plainGame "a")] [] (fun _ => 0)) :=
  ⟨by decide,
   diversify_bounded defaultConfig
     [scoreOne defaultConfig plainContext emptyHistory 0 (plainGame "a")] 1 (by decide)⟩

/-! ## SponsoredInjector (bucketOrganizer.ts) -/

/-- `SponsoredInjector.calculateInjectionSlots`. -/
def calculateInjectionSlots (organicCount sponsoredCount : ℕ) : List ℕ :=
  (List.range sponsoredCount).map
    (fun i => (organicCount / (sponsoredCount + 1)) * (i + 1) + i)

/-- The merge loop of `SponsoredInjector.injectSponsored`: walk output
positions `i` left to right (`fuel` positions remain), placing the next
sponsored item when `i` is a slot and sponsored items remain, else the next
organic item if any. -/
def injectGo (slots : List ℕ) : ℕ → ℕ → List ScoredGame → List ScoredGame → List ScoredGame
  | 0, _, _, _ => []
  | fuel + 1, i, dRem, sRem =>
    if slots.contains i && !sRem.isEmpty then
      match sRem with
      | s :: sRest => s :: injectGo slots fuel (i + 1) dRem sRest
      | [] => []
    else
      match dRem with
      | d :: dRest => d :: injectGo slots fuel (i + 1) dRest sRem
      | [] => injectGo slots fuel (i + 1) [] sRem

/-- The eligible sponsored list: candidates not already present in the
diversified list, truncated to `maxSponsoredPerList`. -/
def eligibleSponsoredOf (maxSponsoredPerList : ℕ)
    (diversifiedGames sponsoredGames : List ScoredGame) : List ScoredGame :=
  (sponsoredGames.filter
      (fun sg => !((diversifiedGames.map (fun d => d.game.gameId)).contains sg.game.gameId))).take
    maxSponsoredPerList

/-- `SponsoredInjector.injectSponsored`. -/
def injectSponsored (maxSponsoredPerList : ℕ)
    (diversifiedGames sponsoredGames : List ScoredGame) : List ScoredGame :=
  let eligibleSponsored := eligibleSponsoredOf maxSponsoredPerList diversifiedGames sponsoredGames
  if eligibleSponsored.length = 0 then diversifiedGames
  else
    injectGo (calculateInjectionSlots diversifiedGames.length eligibleSponsored.length)
      (diversifiedGames.length + eligibleSponsored.length) 0 diversifiedGames eligibleSponsored

theorem injectGo_zero (slots : List ℕ) (i : ℕ) (dRem sRem : List ScoredGame) :
    injectGo slots 0 i dRem sRem = [] := rfl

theorem injectGo_succ_spon (slots : List ℕ) (fuel i : ℕ) (dRem : List ScoredGame)
    (s : ScoredGame) (sRest : List ScoredGame) (hc : slots.contains i = true) :
    injectGo slots (fuel + 1) i dRem (s :: sRest) =
      s :: injectGo slots fuel (i + 1) dRem sRest := by
  have hmem : i ∈ slots := by simpa using hc
  rw [injectGo.eq_def]
  simp [hmem]

theorem injectGo_succ_org_false (slots : List ℕ) (fuel i : ℕ) (d : ScoredGame)
    (dRest : List ScoredGame) (s : ScoredGame) (sRest : List ScoredGame)
    (hc : slots.contains i = false) :
    injectGo slots (fuel + 1) i (d :: dRest) (s :: sRest) =
      d :: injectGo slots fuel (i + 1) dRest (s :: sRest) := by
  have hmem : i ∉ slots := by simpa using hc
  rw [injectGo.eq_def]
  simp [hmem]

theorem injectGo_succ_org_nil (slots : List ℕ) (fuel i : ℕ) (d : ScoredGame)
    (dRest : List ScoredGame) :
    injectGo slots (fuel + 1) i (d :: dRest) [] =
      d :: injectGo slots fuel (i + 1) dRest [] := by
  rw [injectGo.eq_def]
  simp

theorem injectGo_succ_nil_false (slots : List ℕ) (fuel i : ℕ)
    (s : ScoredGame) (sRest : List ScoredGame) (hc : slots.contains i = false) :
    injectGo slots (fuel + 1) i [] (s :: sRest) =
      injectGo slots fuel (i + 1) [] (s :: sRest) := by
  have hmem : i ∉ slots := by simpa using hc
  rw [injectGo.eq_def]
  simp [hmem]

theorem injectGo_succ_nil_nil (slots : List ℕ) (fuel i : ℕ) :
    injectGo slots (fuel + 1) i [] [] = injectGo slots fuel (i + 1) [] [] := by
  rw [injectGo.eq_def]
  simp

theorem mem_injectGo {slots : List ℕ} :
    ∀ {fuel i : ℕ} {dRem sRem : List ScoredGame} {x : ScoredGame},
      x ∈ injectGo slots fuel i dRem sRem → x ∈ dRem ∨ x ∈ sRem := by
  intro fuel
  induction fuel with
  | zero => intro i dRem sRem x h; rw [injectGo_zero] at h; cases h
  | succ fuel ih =>
    intro i dRem sRem x h
    rcases sRem with - | ⟨s, sRest⟩
    · rcases dRem with - | ⟨d, dRest⟩
      · rw [injectGo_succ_nil_nil] at h
        exact ih h
      · rw [injectGo_succ_org_nil] at h
        rcases List.mem_cons.mp h with rfl | h'
        · exact Or.inl (List.mem_cons_self _ _)
        · rcases ih h' with h'' | h''
          · exact Or.inl (List.mem_cons_of_mem _ h'')
          · cases h''
    · rcases hc : slots.contains i with - | -
      · rcases dRem with - | ⟨d, dRest⟩
        · rw [injectGo_succ_nil_false _ _ _ _ _ hc] at h
          rcases ih h with h' | h'
          · cases h'
          · exact Or.inr h'
        · rw [injectGo_succ_org_false _ _ _ _ _ _ _ hc] at h
          rcases List.mem_cons.mp h with rfl | h'
          · exact Or.inl (List.mem_cons_self _ _)
          · rcases ih h' with h'' | h''
            · exact Or.inl (List.mem_cons_of_mem _ h'')
            · exact Or.inr h''
      · rw [injectGo_succ_spon _ _ _ _ _ _ hc] at h
        rcases List.mem_cons.mp h with rfl | h'
        · exact Or.inr (List.mem_cons_self _ _)
        · rcases ih h' with h'' | h''
          · exact Or.inl h''
          · exact Or.inr (List.mem_cons_of_mem _ h'')

theorem mem_injectSponsored {maxSponsoredPerList : ℕ}
    {diversifiedGames sponsoredGames : List ScoredGame} {x : ScoredGame}
    (h : x ∈ injectSponsored maxSponsoredPerList diversifiedGames sponsoredGames) :
    x ∈ diversifiedGames ∨ x ∈ sponsoredGames := by
  rw [injectSponsored] at h
  split at h
  · exact Or.inl h
  · rcases mem_injectGo h with h' | h'
    · exact Or.inl h'
    · right
      have := List.mem_of_mem_take h'
      exact List.mem_of_mem_filter this

theorem filter_le_length_split (i : ℕ) (l : List ℕ) :
    (l.filter (fun s => decide (i ≤ s))).length =
      (l.filter (fun s => decide (i + 1 ≤ s))).length + l.count i := by
  induction l with
  | nil => simp
  | cons x l ih =>
    by_cases hx : x = i
    · subst hx
      simp only [List.filter_cons, List.count_cons]
      have h1 : decide (x ≤ x) = true := by simp
      have h2 : decide (x + 1 ≤ x) = false := by simp
      simp [h1, h2, ih]
      omega
    · by_cases hle : i ≤ x
      · have hle' : i + 1 ≤ x := by omega
        simp [List.filter_cons, List.count_cons, hle, hle', hx, ih]
        omega
      · have hle' : ¬ (i + 1 ≤ x) := by omega
        simp [List.filter_cons, List.count_cons, hle, hle', hx, ih]

theorem nat_list_pigeonhole {l : List ℕ} {a n : ℕ} (hn : 0 < n) (hnd : l.Nodup)
    (hmem : ∀ s ∈ l, a ≤ s ∧ s < a + n) (hlen : n ≤ l.length) : a ∈ l := by
  have hsub : l.toFinset ⊆ Finset.Ico a (a + n) := by
    intro x hx
    rcases hmem x (List.mem_toFinset.mp hx) with ⟨h1, h2⟩
    exact Finset.mem_Ico.mpr ⟨h1, h2⟩
  have hcard : l.toFinset.card = l.length := List.toFinset_card_of_nodup hnd
  have hico : Finset.Ico a (a + n) ⊆ l.toFinset := by
    apply Finset.subset_of_eq
    symm
    apply Finset.eq_of_subset_of_card_le hsub
    rw [hcard, Nat.card_Ico]
    omega
  have : a ∈ Finset.Ico a (a + n) := Finset.mem_Ico.mpr ⟨le_refl a, by omega⟩
  exact List.mem_toFinset.mp (hico this)

/-- Invariant proof for the merge loop: with distinct slots, all below the
remaining window, exactly one per remaining sponsored item, the loop emits a
shuffle of the organic and sponsored remainders. -/
theorem injectGo_spec (slots : List ℕ) :
    ∀ (fuel i : ℕ) (dRem sRem : List ScoredGame),
      slots.Nodup →
      (∀ s ∈ slots, i ≤ s → s < i + fuel) →
      (slots.filter (fun s => decide (i ≤ s))).length = sRem.length →
      fuel = dRem.length + sRem.length →
      List.Perm (injectGo slots fuel i dRem sRem) (dRem ++ sRem) ∧
      List.Sublist dRem (injectGo slots fuel i dRem sRem) ∧
      List.Sublist sRem (injectGo slots fuel i dRem sRem) := by
  intro fuel
  induction fuel with
  | zero =>
    intro i dRem sRem _ _ _ hfuel
    have hd : dRem = [] := List.length_eq_zero.mp (by omega)
    have hs : sRem = [] := List.length_eq_zero.mp (by omega)
    subst hd; subst hs
    rw [injectGo_zero]
    exact ⟨List.Perm.refl _, List.nil_sublist _, List.nil_sublist _⟩
  | succ fuel ih =>
    intro i dRem sRem hnd hbound hslots hfuel
    have hbound' : ∀ s ∈ slots, i + 1 ≤ s → s < (i + 1) + fuel := by
      intro s hs h1
      have := hbound s hs (by omega)
      omega
    rcases sRem with - | ⟨s, sRest⟩
    · -- no sponsored remain: organic fills (or nothing)
      have hs0 : (slots.filter (fun s => decide (i ≤ s))).length = 0 := by
        simpa using hslots
      have hfilter : (slots.filter (fun s => decide ((i + 1) ≤ s))).length = 0 := by
        have := filter_le_length_split i slots
        omega
      rcases dRem with - | ⟨d, dRest⟩
      · exfalso
        simp at hfuel
      · rw [injectGo_succ_org_nil]
        have hflen : fuel = dRest.length + ([] : List ScoredGame).length := by
          simp at hfuel ⊢
          omega
        rcases ih (i + 1) dRest [] hnd hbound' (by simpa using hfilter) hflen with
          ⟨hperm, hdsub, -⟩
        refine ⟨?_, hdsub.cons₂ d, List.nil_sublist _⟩
        simpa using (hperm.cons d)
    · rcases hc : slots.contains i with - | -
      · -- position i is not a slot: place organic
        have hinotmem : i ∉ slots := by
          intro hmem
          have : slots.contains i = true := by simpa using hmem
          rw [hc] at this
          cases this
        have hcount : slots.count i = 0 := List.count_eq_zero_of_not_mem hinotmem
        have hsplit := filter_le_length_split i slots
        have hfilter : (slots.filter (fun t => decide ((i + 1) ≤ t))).length =
            (s :: sRest).length := by
          omega
        rcases dRem with - | ⟨d, dRest⟩
        · -- impossible: the remaining slots must include position i
          exfalso
          have hlen : (s :: sRest).length = fuel + 1 := by
            simp at hfuel ⊢
            omega
          have hmem : i ∈ slots.filter (fun t => decide (i ≤ t)) := by
            apply nat_list_pigeonhole (a := i) (n := fuel + 1) (by omega)
              (hnd.filter _)
            · intro t ht
              have htmem := List.mem_of_mem_filter ht
              have hti : i ≤ t := by simpa using List.of_mem_filter ht
              exact ⟨hti, hbound t htmem hti⟩
            · omega
          exact hinotmem (List.mem_of_mem_filter hmem)
        · rw [injectGo_succ_org_false _ _ _ _ _ _ _ hc]
          have hflen : fuel = dRest.length + (s :: sRest).length := by
            simp at hfuel ⊢
            omega
          rcases ih (i + 1) dRest (s :: sRest) hnd hbound' hfilter hflen with
            ⟨hperm, hdsub, hssub⟩
          refine ⟨?_, hdsub.cons₂ d, hssub.cons d⟩
          simpa using (hperm.cons d)
      · -- position i is a slot and sponsored remain: place sponsored
        have himem : i ∈ slots := by simpa using hc
        have hcount1 : slots.count i = 1 := by
          have h1 : 0 < slots.count i := List.count_pos_iff.mpr himem
          have h2 : slots.count i ≤ 1 := List.nodup_iff_count_le_one.mp hnd i
          omega
        have hsplit := filter_le_length_split i slots
        have hslen : (slots.filter (fun t => decide (i ≤ t))).length = sRest.length + 1 := by
          simpa using hslots
        have hfilter : (slots.filter (fun t => decide ((i + 1) ≤ t))).length =
            sRest.length := by
          omega
        rw [injectGo_succ_spon _ _ _ _ _ _ hc]
        have hflen : fuel = dRem.length + sRest.length := by
          simp at hfuel ⊢
          omega
        rcases ih (i + 1) dRem sRest hnd hbound' hfilter hflen with ⟨hperm, hdsub, hssub⟩
        refine ⟨?_, hdsub.cons s, hssub.cons₂ s⟩
        exact (hperm.cons s).trans List.perm_middle.symm

theorem calculateInjectionSlots_nodup (n k : ℕ) : (calculateInjectionSlots n k).Nodup := by
  have hmono : StrictMono (fun i : ℕ => n / (k + 1) * (i + 1) + i) := by
    intro a b hab
    have hm : n / (k + 1) * (a + 1) ≤ n / (k + 1) * (b + 1) :=
      Nat.mul_le_mul_left _ (by omega)
    simp only
    omega
  exact (List.nodup_range k).map hmono.injective

theorem calculateInjectionSlots_lt (n k : ℕ) :
    ∀ s ∈ calculateInjectionSlots n k, s < n + k := by
  intro s hs
  rcases List.mem_map.mp hs with ⟨i, hi, rfl⟩
  have hik : i < k := List.mem_range.mp hi
  have h1 : n / (k + 1) * (i + 1) ≤ n / (k + 1) * k := Nat.mul_le_mul_left _ (by omega)
  have h2 : n / (k + 1) * k ≤ n / (k + 1) * (k + 1) := Nat.mul_le_mul_left _ (by omega)
  have h3 : n / (k + 1) * (k + 1) ≤ n := Nat.div_mul_le_self n (k + 1)
  omega

theorem calculateInjectionSlots_length (n k : ℕ) :
    (calculateInjectionSlots n k).length = k := by
  simp [calculateInjectionSlots]

/-- **C5.** With duplicate-free inputs, `injectSponsored` yields a list with no
duplicate game ids that is a shuffle of the diversified list with the eligible
sponsored items (at most `maxSponsoredPerList` of them, taken in their incoming
order); the organic items are a sublist of the output (their relative order is
preserved) and the eligible sponsored items are a sublist both of the output
(the sponsored items keep their relative order among themselves in the returned
list) and of the incoming sponsored candidates; if no eligible sponsored item
remains the input is returned unchanged. -/
theorem injectSponsored_no_dup_bounded_order_preserving
    (maxSponsoredPerList : ℕ) (diversifiedGames sponsoredGames : List ScoredGame)
    (hdiv : (diversifiedGames.map (fun sg => sg.game.gameId)).Nodup)
    (hspon : (sponsoredGames.map (fun sg => sg.game.gameId)).Nodup) :
    ((injectSponsored maxSponsoredPerList diversifiedGames sponsoredGames).map
        (fun sg => sg.game.gameId)).Nodup ∧
    List.Perm (injectSponsored maxSponsoredPerList diversifiedGames sponsoredGames)
      (diversifiedGames ++ eligibleSponsoredOf maxSponsoredPerList diversifiedGames sponsoredGames) ∧
    (eligibleSponsoredOf maxSponsoredPerList diversifiedGames sponsoredGames).length ≤
      maxSponsoredPerList ∧
    List.Sublist diversifiedGames
      (injectSponsored maxSponsoredPerList diversifiedGames sponsoredGames) ∧
    List.Sublist (eligibleSponsoredOf maxSponsoredPerList diversifiedGames sponsoredGames)
      (injectSponsored maxSponsoredPerList diversifiedGames sponsoredGames) ∧
    List.Sublist (eligibleSponsoredOf maxSponsoredPerList diversifiedGames sponsoredGames)
      sponsoredGames ∧
    (eligibleSponsoredOf maxSponsoredPerList diversifiedGames sponsoredGames = [] →
      injectSponsored maxSponsoredPerList diversifiedGames sponsoredGames = diversifiedGames) := by
  have heligsub : List.Sublist
      (eligibleSponsoredOf maxSponsoredPerList diversifiedGames sponsoredGames)
      sponsoredGames :=
    (List.take_sublist _ _).trans (List.filter_sublist _)
  have heliglen :
      (eligibleSponsoredOf maxSponsoredPerList diversifiedGames sponsoredGames).length ≤
        maxSponsoredPerList := by
    rw [eligibleSponsoredOf]
    exact List.length_take_le _ _
  by_cases hzero :
      (eligibleSponsoredOf maxSponsoredPerList diversifiedGames sponsoredGames).length = 0
  · have helig : eligibleSponsoredOf maxSponsoredPerList diversifiedGames sponsoredGames = [] :=
      List.length_eq_zero.mp hzero
    have hres : injectSponsored maxSponsoredPerList diversifiedGames sponsoredGames =
        diversifiedGames := by
      rw [injectSponsored]
      simp [hzero]
    rw [hres, helig]
    exact ⟨hdiv, by simp, by simp,
      List.Sublist.refl _, List.nil_sublist _, List.nil_sublist _, fun _ => rfl⟩
  · have hres : injectSponsored maxSponsoredPerList diversifiedGames sponsoredGames =
        injectGo
          (calculateInjectionSlots diversifiedGames.length
            (eligibleSponsoredOf maxSponsoredPerList diversifiedGames sponsoredGames).length)
          (diversifiedGames.length +
            (eligibleSponsoredOf maxSponsoredPerList diversifiedGames sponsoredGames).length)
          0 diversifiedGames
          (eligibleSponsoredOf maxSponsoredPerList diversifiedGames sponsoredGames) := by
      rw [injectSponsored]
      simp [hzero]
    rcases injectGo_spec
        (calculateInjectionSlots diversifiedGames.length
          (eligibleSponsoredOf maxSponsoredPerList diversifiedGames sponsoredGames).length)
        (diversifiedGames.length +
          (eligibleSponsoredOf maxSponsoredPerList diversifiedGames sponsoredGames).length)
        0 diversifiedGames
        (eligibleSponsoredOf maxSponsoredPerList diversifiedGames sponsoredGames)
        (calculateInjectionSlots_nodup _ _)
        (fun s hs _ => by simpa using calculateInjectionSlots_lt _ _ s hs)
        (by
          rw [List.filter_eq_self.mpr (by intro a _; simp), calculateInjectionSlots_length])
        rfl with ⟨hperm, hdsub, hssub⟩
    rw [hres]
    refine ⟨?_, hperm, heliglen, hdsub, hssub, heligsub, ?_⟩
    · have hpm := hperm.map (fun sg => sg.game.gameId)
      rw [List.map_append] at hpm
      apply hpm.nodup_iff.mpr
      apply List.nodup_append.mpr
      refine ⟨hdiv, (heligsub.map _).nodup hspon, ?_⟩
      intro x hx hx'
      rcases List.mem_map.mp hx' with ⟨sg, hsg, rfl⟩
      have hsg' := List.mem_of_mem_take
        (by simpa [eligibleSponsoredOf] using hsg)
      have hfail := List.of_mem_filter hsg'
      simp only [Bool.not_eq_true'] at hfail
      have hnotin : ¬ ∃ a ∈ diversifiedGames, a.game.gameId = sg.game.gameId := by
        simpa using hfail
      rcases List.mem_map.mp hx with ⟨d, hd, hdeq⟩
      exact hnotin ⟨d, hd, hdeq⟩
    · intro helig
      rw [helig] at hzero
      simp at hzero

/-- Witness for C5 at concrete duplicate-free inputs. -/
theorem injectSponsored_no_dup_witness :
    (([scoreOne defaultConfig plainContext emptyHistory 0 (plainGame "a")].map
        (fun sg => sg.game.gameId)).Nodup ∧
     ([scoreOne defaultConfig plainContext emptyHistory 0 (plainGame "s")].map
        (fun sg => sg.game.gameId)).Nodup) ∧
    (((injectSponsored 3 [scoreOne defaultConfig plainContext emptyHistory 0 (plainGame "a")]
        [scoreOne defaultConfig plainContext emptyHistory 0 (plainGame "s")]).map
        (fun sg => sg.game.gameId)).Nodup ∧
     List.Perm (injectSponsored 3
        [scoreOne defaultConfig plainContext emptyHistory 0 (plainGame "a")]
        [scoreOne defaultConfig plainContext emptyHistory 0 (plainGame "s")])
      ([scoreOne defaultConfig plainContext emptyHistory 0 (plainGame "a")] ++
        eligibleSponsoredOf 3 [scoreOne defaultConfig plainContext emptyHistory 0 (plainGame "a")]
          [scoreOne defaultConfig plainContext emptyHistory 0 (plainGame "s")]) ∧
     (eligibleSponsoredOf 3 [scoreOne defaultConfig plainContext emptyHistory 0 (plainGame "a")]
        [scoreOne defaultConfig plainContext emptyHistory 0 (plainGame "s")]).length ≤ 3 ∧
     List.Sublist [scoreOne defaultConfig plainContext emptyHistory 0 (plainGame "a")]
      (injectSponsored 3 [scoreOne defaultConfig plainContext emptyHistory 0 (plainGame "a")]
        [scoreOne defaultConfig plainContext emptyHistory 0 (plainGame "s")]) ∧
     List.Sublist (eligibleSponsoredOf 3
        [scoreOne defaultConfig plainContext emptyHistory 0 (plainGame "a")]
        [scoreOne defaultConfig plainContext emptyHistory 0 (plainGame "s")])
      (injectSponsored 3 [scoreOne defaultConfig plainContext emptyHistory 0 (plainGame "a")]
        [scoreOne defaultConfig plainContext emptyHistory 0 (plainGame "s")]) ∧
     List.Sublist (eligibleSponsoredOf 3
        [scoreOne defaultConfig plainContext emptyHistory 0 (plainGame "a")]
        [scoreOne defaultConfig plainContext emptyHistory 0 (plainGame "s")])
      [scoreOne defaultConfig plainContext emptyHistory 0 (plainGame "s")]) := by
  have h := injectSponsored_no_dup_bounded_order_preserving 3
    [scoreOne defaultConfig plainContext emptyHistory 0 (plainGame "a")]
    [scoreOne defaultConfig plainContext emptyHistory 0 (plainGame "s")]
    (by decide) (by decide)
  exact ⟨⟨by decide, by decide⟩, h.1, h.2.1, h.2.2.1, h.2.2.2.1, h.2.2.2.2.1,
    h.2.2.2.2.2.1⟩

/-! ## ChartGenerator (chartGenerator.ts)

The async `ChartDataSource` is modelled as a record of pure functions; the
shared finishing shape `sort desc → slice to limit → assign ranks 1..N` is
`finalizeChart`. -/

structure ChartDataSource where
  getGameMetrics : GameId → AgeBand → Platform → GameMetrics
  fetchGamesByAgeAndPlatform : AgeBand → Platform → List Game

/-- `.map((entry, index) => ({ ...entry, rank: index + 1 }))`, with `n` the
rank of the first entry. -/
def assignRanks : ℕ → List ChartEntry → List ChartEntry
  | _, [] => []
  | n, e :: es => { e with rank := n } :: assignRanks (n + 1) es

/-- `chartList.sort((a, b) => b.score - a.score)`, then `.slice(0, limit)`,
then rank assignment — common to all seven chart kinds. -/
noncomputable def finalizeChart (limit : ℕ) (chartList : List ChartEntry) : List ChartEntry :=
  assignRanks 1 ((sortDescBy (fun e => e.score) chartList).take limit)

/-- `ChartGenerator.generateTopTrending`. -/
noncomputable def generateTopTrending (ds : ChartDataSource) (ageBand : AgeBand)
    (platform : Platform) (limit : ℕ) : List ChartEntry :=
  finalizeChart limit
    ((ds.fetchGamesByAgeAndPlatform ageBand platform).map (fun game =>
      let metrics := ds.getGameMetrics game.gameId ageBand platform
      let score : ℝ :=
        if metrics.playsPrev7Days = 0 then (metrics.playsLast7Days : ℝ)
        else ((metrics.playsLast7Days : ℝ) - (metrics.playsPrev7Days : ℝ)) /
          (metrics.playsPrev7Days : ℝ)
      { gameId := game.gameId, score := score, rank := 0 }))

/-- The release-window filter of `generateUpAndComing`. -/
def upAndComingPass (now : ℤ) (game : Game) : Bool :=
  decide (daysSince now game.releaseDate ≤ 30)

/-- `ChartGenerator.generateUpAndComing`. -/
noncomputable def generateUpAndComing (ds : ChartDataSource) (ageBand : AgeBand)
    (platform : Platform) (limit : ℕ) (now : ℤ) : List ChartEntry :=
  finalizeChart limit
    ((ds.fetchGamesByAgeAndPlatform ageBand platform).filterMap (fun game =>
      if 30 < daysSince now game.releaseDate then none
      else
        let metrics := ds.getGameMetrics game.gameId ageBand platform
        let recencyWeight : ℝ := 1 - (daysSince now game.releaseDate : ℝ) / 30
        let engagementScore : ℝ := Real.log (1 + (metrics.playsLast30Days : ℝ))
        some { gameId := game.gameId,
               score := recencyWeight * (4/10) + engagementScore * (6/10), rank := 0 }))

/-- `ChartGenerator.generateTopPlayingNow`. -/
noncomputable def generateTopPlayingNow (ds : ChartDataSource) (ageBand : AgeBand)
    (platform : Platform) (limit : ℕ) : List ChartEntry :=
  finalizeChart limit
    ((ds.fetchGamesByAgeAndPlatform ageBand platform).map (fun game =>
      { gameId := game.gameId,
        score := ((ds.getGameMetrics game.gameId ageBand platform).currentSessions : ℝ),
        rank := 0 }))

/-- The `uniquePlayers = 0` skip of `generateTopReplayed`. -/
def topReplayedPass (ds : ChartDataSource) (ageBand : AgeBand) (platform : Platform)
    (game : Game) : Bool :=
  decide ((ds.getGameMetrics game.gameId ageBand platform).uniquePlayers ≠ 0)

/-- `ChartGenerator.generateTopReplayed`. -/
noncomputable def generateTopReplayed (ds : ChartDataSource) (ageBand : AgeBand)
    (platform : Platform) (limit : ℕ) : List ChartEntry :=
  finalizeChart limit
    ((ds.fetchGamesByAgeAndPlatform ageBand platform).filterMap (fun game =>
      let metrics := ds.getGameMetrics game.gameId ageBand platform
      if metrics.uniquePlayers = 0 then none
      else
        some { gameId := game.gameId,
               score := (metrics.totalSessions : ℝ) / (metrics.uniquePlayers : ℝ),
               rank := 0 }))

/-- `ChartGenerator.generateTopEarning`. -/
noncomputable def generateTopEarning (ds : ChartDataSource) (ageBand : AgeBand)
    (platform : Platform) (limit : ℕ) : List ChartEntry :=
  finalizeChart limit
    ((ds.fetchGamesByAgeAndPlatform ageBand platform).map (fun game =>
      { gameId := game.gameId,
        score := ((ds.getGameMetrics game.gameId ageBand platform).totalRevenue : ℝ),
        rank := 0 }))

/-- The `totalReactions = 0` skip of `generateTopRated`. -/
def topRatedPass (ds : ChartDataSource) (ageBand : AgeBand) (platform : Platform)
    (game : Game) : Bool :=
  decide ((ds.getGameMetrics game.gameId ageBand platform).likes +
    (ds.getGameMetrics game.gameId ageBand platform).dislikes ≠ 0)

/-- `ChartGenerator.generateTopRated`. -/
noncomputable def generateTopRated (ds : ChartDataSource) (ageBand : AgeBand)
    (platform : Platform) (limit : ℕ) : List ChartEntry :=
  finalizeChart limit
    ((ds.fetchGamesByAgeAndPlatform ageBand platform).filterMap (fun game =>
      let metrics := ds.getGameMetrics game.gameId ageBand platform
      if metrics.likes + metrics.dislikes = 0 then none
      else
        some { gameId := game.gameId,
               score :=
                 (((metrics.likes : ℝ) - (metrics.dislikes : ℝ)) /
                    ((metrics.likes + metrics.dislikes : ℕ) : ℝ)) *
                   min 1 (Real.log (1 + ((metrics.likes + metrics.dislikes : ℕ) : ℝ)) /
                     Real.log 1000),
               rank := 0 }))

/-- `ChartGenerator.generateTrendingInGenre`. -/
noncomputable def generateTrendingInGenre (ds : ChartDataSource) (genreId : GenreId)
    (ageBand : AgeBand) (platform : Platform) (limit : ℕ) : List ChartEntry :=
  finalizeChart limit
    (((ds.fetchGamesByAgeAndPlatform ageBand platform).filter
        (fun game => decide (genreId ∈ vecKeys game.genreVector))).map (fun game =>
      let metrics := ds.getGameMetrics game.gameId ageBand platform
      let score : ℝ :=
        if metrics.playsPrev7Days = 0 then (metrics.playsLast7Days : ℝ)
        else ((metrics.playsLast7Days : ℝ) - (metrics.playsPrev7Days : ℝ)) /
          (metrics.playsPrev7Days : ℝ)
      { gameId := game.gameId, score := score, rank := 0 }))

theorem assignRanks_length : ∀ (n : ℕ) (l : List ChartEntry),
    (assignRanks n l).length = l.length
  | _, [] => rfl
  | n, _ :: es => by
    rw [assignRanks]
    simp [assignRanks_length (n + 1) es]

theorem assignRanks_map_rank : ∀ (n : ℕ) (l : List ChartEntry),
    (assignRanks n l).map (fun e => e.rank) = List.range' n l.length
  | _, [] => rfl
  | n, e :: es => by
    rw [assignRanks]
    simp [List.range', assignRanks_map_rank (n + 1) es]

theorem assignRanks_map_score : ∀ (n : ℕ) (l : List ChartEntry),
    (assignRanks n l).map (fun e => e.score) = l.map (fun e => e.score)
  | _, [] => rfl
  | n, e :: es => by
    rw [assignRanks]
    simp [assignRanks_map_score (n + 1) es]

theorem pairwise_score_of_map_score_eq {l l' : List ChartEntry}
    (h : l'.map (fun e => e.score) = l.map (fun e => e.score))
    (hp : l.Pairwise (fun a b => b.score ≤ a.score)) :
    l'.Pairwise (fun a b => b.score ≤ a.score) := by
  have h1 : (l.map (fun e => e.score)).Pairwise (fun a b => b ≤ a) :=
    List.pairwise_map.mpr hp
  rw [← h] at h1
  exact List.pairwise_map.mp h1

/-- The three chart output invariants shared by every kind. -/
theorem finalizeChart_spec (limit : ℕ) (chartList : List ChartEntry) :
    (finalizeChart limit chartList).Pairwise (fun a b => b.score ≤ a.score) ∧
    (finalizeChart limit chartList).map (fun e => e.rank) =
      List.range' 1 (finalizeChart limit chartList).length ∧
    (finalizeChart limit chartList).length = min limit chartList.length := by
  have hlen : (finalizeChart limit chartList).length = min limit chartList.length := by
    rw [finalizeChart, assignRanks_length, List.length_take, length_sortDescBy]
  refine ⟨?_, ?_, hlen⟩
  · apply pairwise_score_of_map_score_eq (assignRanks_map_score 1 _)
    exact ((sortDescBy_pairwise (fun e => e.score) chartList).sublist
      (List.take_sublist _ _))
  · rw [finalizeChart, assignRanks_map_rank, assignRanks_length]

theorem length_filterMap_eq_length_filter {α β : Type} (f : α → Option β) (p : α → Bool)
    (hfp : ∀ x, (f x).isSome = p x) : ∀ l : List α,
    (l.filterMap f).length = (l.filter p).length
  | [] => rfl
  | x :: l => by
    have hx := hfp x
    rcases hfx : f x with - | b
    · rw [hfx] at hx
      simp only [List.filterMap_cons, List.filter_cons, hfx, ← hx]
      exact length_filterMap_eq_length_filter f p hfp l
    · rw [hfx] at hx
      simp only [List.filterMap_cons, List.filter_cons, hfx, ← hx]
      simp [length_filterMap_eq_length_filter f p hfp l]

/-- Sortedness + contiguous 1-based ranks + N = min(limit, passing candidates),
for one chart output. -/
def chartRankedProperly (out : List ChartEntry) (limit passCount : ℕ) : Prop :=
  out.Pairwise (fun a b => b.score ≤ a.score) ∧
  out.map (fun e => e.rank) = List.range' 1 out.length ∧
  out.length = min limit passCount

theorem finalizeChart_map_spec {α : Type} (limit : ℕ) (f : α → ChartEntry) (l : List α) :
    chartRankedProperly (finalizeChart limit (l.map f)) limit l.length := by
  rcases finalizeChart_spec limit (l.map f) with ⟨h1, h2, h3⟩
  exact ⟨h1, h2, by rw [h3, List.length_map]⟩

theorem finalizeChart_filterMap_spec {α : Type} (limit : ℕ) (f : α → Option ChartEntry)
    (p : α → Bool) (hfp : ∀ x, (f x).isSome = p x) (l : List α) :
    chartRankedProperly (finalizeChart limit (l.filterMap f)) limit (l.filter p).length := by
  rcases finalizeChart_spec limit (l.filterMap f) with ⟨h1, h2, h3⟩
  exact ⟨h1, h2, by rw [h3, length_filterMap_eq_length_filter f p hfp]⟩

/-- **C6.** Every chart kind returns entries sorted by score descending with
ranks exactly `{1, …, N}` in list order, `N = min(limit, #candidates passing
the kind's filter)` (kinds without a skip condition pass every candidate). -/
theorem charts_sorted_ranked_contiguous (ds : ChartDataSource) (ageBand : AgeBand)
    (platform : Platform) (limit : ℕ) (genreId : GenreId) (now : ℤ) :
    chartRankedProperly (generateTopTrending ds ageBand platform limit) limit
      (ds.fetchGamesByAgeAndPlatform ageBand platform).length ∧
    chartRankedProperly (generateUpAndComing ds ageBand platform limit now) limit
      ((ds.fetchGamesByAgeAndPlatform ageBand platform).filter (upAndComingPass now)).length ∧
    chartRankedProperly (generateTopPlayingNow ds ageBand platform limit) limit
      (ds.fetchGamesByAgeAndPlatform ageBand platform).length ∧
    chartRankedProperly (generateTopReplayed ds ageBand platform limit) limit
      ((ds.fetchGamesByAgeAndPlatform ageBand platform).filter
        (topReplayedPass ds ageBand platform)).length ∧
    chartRankedProperly (generateTopEarning ds ageBand platform limit) limit
      (ds.fetchGamesByAgeAndPlatform ageBand platform).length ∧
    chartRankedProperly (generateTopRated ds ageBand platform limit) limit
      ((ds.fetchGamesByAgeAndPlatform ageBand platform).filter
        (topRatedPass ds ageBand platform)).length ∧
    chartRankedProperly (generateTrendingInGenre ds genreId ageBand platform limit) limit
      ((ds.fetchGamesByAgeAndPlatform ageBand platform).filter
        (fun game => decide (genreId ∈ vecKeys game.genreVector))).length := by
  refine ⟨?_, ?_, ?_, ?_, ?_, ?_, ?_⟩
  · exact finalizeChart_map_spec limit _ _
  · apply finalizeChart_filterMap_spec
    intro game
    rw [upAndComingPass]
    by_cases hd : 30 < daysSince now game.releaseDate
    · have h30 : ¬ daysSince now game.releaseDate ≤ 30 := by omega
      simp [hd, h30]
    · have h30 : daysSince now game.releaseDate ≤ 30 := by omega
      simp [hd, h30]
  · exact finalizeChart_map_spec limit _ _
  · apply finalizeChart_filterMap_spec
    intro game
    rw [topReplayedPass]
    by_cases hu : (ds.getGameMetrics game.gameId ageBand platform).uniquePlayers = 0 <;>
      simp [hu]
  · exact finalizeChart_map_spec limit _ _
  · apply finalizeChart_filterMap_spec
    intro game
    rw [topRatedPass]
    by_cases hr : (ds.getGameMetrics game.gameId ageBand platform).likes +
        (ds.getGameMetrics game.gameId ageBand platform).dislikes = 0 <;>
      simp [hr]
  · exact finalizeChart_map_spec limit _ _

/-! ## generateChart dispatch (recommendationEngine.ts) and C7 -/

inductive EngineError
  | invalidArgument (message : String)
deriving DecidableEq

/-- `RecommendationEngine.generateChart`.  The genre check is JavaScript's
falsy test `if (!genreId)`, which fires both when the genre id is absent and
when it equals `0`. -/
noncomputable def generateChart (cds : ChartDataSource) (chartType : ChartType)
    (ageBand : AgeBand) (platform : Platform) (limit : ℕ) (genreId : Option GenreId)
    (now : ℤ) : Except EngineError (List ChartEntry) :=
  match chartType with
  | .TOP_TRENDING => .ok (generateTopTrending cds ageBand platform limit)
  | .UP_AND_COMING => .ok (generateUpAndComing cds ageBand platform limit now)
  | .TOP_PLAYING_NOW => .ok (generateTopPlayingNow cds ageBand platform limit)
  | .TOP_REPLAYED => .ok (generateTopReplayed cds ageBand platform limit)
  | .TOP_EARNING => .ok (generateTopEarning cds ageBand platform limit)
  | .TOP_RATED => .ok (generateTopRated cds ageBand platform limit)
  | .TRENDING_IN_GENRE =>
    match genreId with
    | none => .error (.invalidArgument "genreId is required for TRENDING_IN_GENRE chart")
    | some genreId =>
      if genreId = 0 then
        .error (.invalidArgument "genreId is required for TRENDING_IN_GENRE chart")
      else .ok (generateTrendingInGenre cds genreId ageBand platform limit)

def exceptIsError {ε α : Type} : Except ε α → Bool
  | .error _ => true
  | .ok _ => false

/-- A trivial chart data source used for concrete evaluations. -/
def emptyChartDataSource : ChartDataSource :=
  { getGameMetrics := fun _ _ _ => ⟨0, 0, 0, 0, 0, 0, 0, 0, 0, 0, 0⟩
    fetchGamesByAgeAndPlatform := fun _ _ => [] }

/-- A second data source, differing from `emptyChartDataSource`. -/
def plainChartDataSource : ChartDataSource :=
  { getGameMetrics := fun _ _ _ => ⟨1, 1, 1, 1, 1, 1, 1, 1, 1, 1, 1⟩
    fetchGamesByAgeAndPlatform := fun _ _ => [plainGame "a"] }

/-- **C7 counterexample.** `generateChart(TRENDING_IN_GENRE)` with the genre id
`0` *supplied* still raises InvalidArgument (JS falsy check), so "fails iff the
kind is unknown or the genre id is missing" is false at this input. -/
theorem generateChart_rejects_supplied_zero_genre :
    generateChart emptyChartDataSource ChartType.TRENDING_IN_GENRE AgeBand.UNDER_9
        Platform.PC 10 (some 0) 0 =
      Except.error (EngineError.invalidArgument
        "genreId is required for TRENDING_IN_GENRE chart") ∧
    (some 0 : Option GenreId) ≠ none :=
  ⟨rfl, by decide⟩

/-- **C7 (amended).** With the chart kind ranging over the `ChartType` enum
(an unknown kind is not representable in the typed API), `generateChart` fails
with InvalidArgument iff the kind is `TRENDING_IN_GENRE` and the genre id is
missing *or falsy (`0`)*; the failure is decided before any data-source access,
so the result is then independent of the data source; for every other kind it
returns `ok`. -/
theorem generateChart_error_iff (cds cds' : ChartDataSource) (chartType : ChartType)
    (ageBand : AgeBand) (platform : Platform) (limit : ℕ) (genreId : Option GenreId)
    (now : ℤ) :
    (exceptIsError (generateChart cds chartType ageBand platform limit genreId now) = true ↔
      (chartType = ChartType.TRENDING_IN_GENRE ∧ (genreId = none ∨ genreId = some 0))) ∧
    (chartType = ChartType.TRENDING_IN_GENRE → (genreId = none ∨ genreId = some 0) →
      generateChart cds chartType ageBand platform limit genreId now =
        generateChart cds' chartType ageBand platform limit genreId now) := by
  constructor
  · cases chartType <;> simp [generateChart, exceptIsError]
    rcases genreId with - | g
    · simp [exceptIsError]
    · by_cases hg : g = 0 <;> simp [exceptIsError, hg]
  · rintro rfl hg
    rcases hg with rfl | rfl
    · rfl
    · rfl

/-- Witness for C7 (amended) at concrete inputs, including the independence of
the error from the data source. -/
theorem generateChart_error_iff_witness :
    exceptIsError (generateChart emptyChartDataSource ChartType.TRENDING_IN_GENRE
        AgeBand.UNDER_9 Platform.PC 10 (some 0) 0) = true ∧
    (ChartType.TRENDING_IN_GENRE = ChartType.TRENDING_IN_GENRE ∧
      ((some 0 : Option GenreId) = none ∨ (some 0 : Option GenreId) = some 0)) ∧
    generateChart emptyChartDataSource ChartType.TRENDING_IN_GENRE AgeBand.UNDER_9
        Platform.PC 10 (some 0) 0 =
      generateChart plainChartDataSource ChartType.TRENDING_IN_GENRE AgeBand.UNDER_9
        Platform.PC 10 (some 0) 0 :=
  ⟨(generateChart_error_iff emptyChartDataSource plainChartDataSource
      ChartType.TRENDING_IN_GENRE AgeBand.UNDER_9 Platform.PC 10 (some 0) 0).1.mpr
      ⟨rfl, Or.inr rfl⟩,
   ⟨rfl, Or.inr rfl⟩,
   (generateChart_error_iff emptyChartDataSource plainChartDataSource
      ChartType.TRENDING_IN_GENRE AgeBand.UNDER_9 Platform.PC 10 (some 0) 0).2
      rfl (Or.inr rfl)⟩

/-! ## CandidateGenerator (candidateGenerator.ts) -/

structure CandidateDataSource where
  getTopGamesByGenres : GenreVector → ℕ → List Game
  getPopularGamesByAgeBand : AgeBand → ℕ → List Game
  getTrendingGames : ℕ → List Game
  getEditorialPicks : ℕ → List Game
  getSponsoredGames : ℕ → List Game

/-- `CandidateGenerator.addToCandidateSet`: first-seen-wins dedup by game id,
keeping insertion order (the `Map<GameId, Game>` iterates in insertion order). -/
def addToCandidateSet (candidateSet : List Game) (games : List Game) : List Game :=
  games.foldl
    (fun acc game =>
      if (acc.map (fun g => g.gameId)).contains game.gameId then acc else acc ++ [game])
    candidateSet

/-- `CandidateGenerator.generateCandidates`. -/
def generateCandidates (ds : CandidateDataSource) (sponsoredEnabled : Bool)
    (userContext : UserContext) : List Game :=
  let s1 := addToCandidateSet [] (ds.getTopGamesByGenres userContext.genreVector 50)
  let s2 := addToCandidateSet s1 (ds.getPopularGamesByAgeBand userContext.ageBand 50)
  let s3 := addToCandidateSet s2 (ds.getTrendingGames 30)
  let s4 := addToCandidateSet s3 (ds.getEditorialPicks 20)
  if sponsoredEnabled then addToCandidateSet s4 (ds.getSponsoredGames 15) else s4

/-! ## BucketOrganizer (bucketOrganizer.ts) -/

/-- `BucketOrganizer.organizeBuckets`: up to four, fixed order, empty sources
omitted. -/
def organizeBuckets (recommendedGames popularGames trendingGames sponsoredGames :
    List ScoredGame) : List RecommendationBucket :=
  (if 0 < recommendedGames.length then
      [{ id := "recommended_for_you", title := "Recommended For You",
         games := recommendedGames.map (fun sg => sg.game.gameId) }]
    else []) ++
  (if 0 < popularGames.length then
      [{ id := "popular_by_age", title := "Popular in Your Age Group",
         games := popularGames.map (fun sg => sg.game.gameId) }]
    else []) ++
  (if 0 < trendingGames.length then
      [{ id := "new_and_trending", title := "New & Trending",
         games := trendingGames.map (fun sg => sg.game.gameId) }]
    else []) ++
  (if 0 < sponsoredGames.length then
      [{ id := "sponsored_events", title := "Sponsored Events",
         games := sponsoredGames.map (fun sg => sg.game.gameId) }]
    else [])

theorem mem_organizeBuckets {recommendedGames popularGames trendingGames sponsoredGames :
    List ScoredGame} {b : RecommendationBucket}
    (hb : b ∈ organizeBuckets recommendedGames popularGames trendingGames sponsoredGames) :
    b.games = recommendedGames.map (fun sg => sg.game.gameId) ∨
    b.games = popularGames.map (fun sg => sg.game.gameId) ∨
    b.games = trendingGames.map (fun sg => sg.game.gameId) ∨
    b.games = sponsoredGames.map (fun sg => sg.game.gameId) := by
  rw [organizeBuckets] at hb
  rcases List.mem_append.mp hb with hb' | hb'
  · rcases List.mem_append.mp hb' with hb'' | hb''
    · rcases List.mem_append.mp hb'' with hb3 | hb3
      · split at hb3
        · cases List.mem_singleton.mp hb3
          exact Or.inl rfl
        · cases hb3
      · split at hb3
        · cases List.mem_singleton.mp hb3
          exact Or.inr (Or.inl rfl)
        · cases hb3
    · split at hb''
      · cases List.mem_singleton.mp hb''
        exact Or.inr (Or.inr (Or.inl rfl))
      · cases hb''
  · split at hb'
    · cases List.mem_singleton.mp hb'
      exact Or.inr (Or.inr (Or.inr rfl))
    · cases hb'

/-! ## RecommendationEngine (recommendationEngine.ts)

The engine instance is a record of the component configurations captured by
the constructor.  `updateConfig` — which in the source mutates the live
instance — is the state transition on that record; `EngineHeap` below tracks
instance identity for the reconfiguration claims. -/

structure ConfigPatch where
  weights : Option ScoreWeights
  moderationThreshold : Option ℚ
  recencyDecayDays : Option ℚ
  creationGracePeriodDays : Option ℤ
  creationPenaltyMaxDays : Option ℤ
  sponsoredAmountMultiplier : Option ℚ
  maxSponsoredBoost : Option ℚ
  maxResults : Option ℕ
  maxSponsoredPerList : Option ℕ
  diversityRules : Option DiversityRules
deriving DecidableEq

/-- `{ ...this.config, ...newConfig }`. -/
def mergeConfig (config : RecommendationConfig) (newConfig : ConfigPatch) :
    RecommendationConfig :=
  { weights := newConfig.weights.getD config.weights
    moderationThreshold := newConfig.moderationThreshold.getD config.moderationThreshold
    recencyDecayDays := newConfig.recencyDecayDays.getD config.recencyDecayDays
    creationGracePeriodDays :=
      newConfig.creationGracePeriodDays.getD config.creationGracePeriodDays
    creationPenaltyMaxDays :=
      newConfig.creationPenaltyMaxDays.getD config.creationPenaltyMaxDays
    sponsoredAmountMultiplier :=
      newConfig.sponsoredAmountMultiplier.getD config.sponsoredAmountMultiplier
    maxSponsoredBoost := newConfig.maxSponsoredBoost.getD config.maxSponsoredBoost
    maxResults := newConfig.maxResults.getD config.maxResults
    maxSponsoredPerList := newConfig.maxSponsoredPerList.getD config.maxSponsoredPerList
    diversityRules := newConfig.diversityRules.getD config.diversityRules }

structure EngineState where
  config : RecommendationConfig
  eligibilityFilter : EligibilityConfig
  scoringConfig : RecommendationConfig
  diversityConfig : RecommendationConfig
  sponsoredInjectorMax : ℕ
  sponsoredEnabled : Bool
deriving DecidableEq

/-- The `RecommendationEngine` constructor: each component captures the
configuration values handed to it at construction time. -/
def mkEngine (config : RecommendationConfig) (sponsoredEnabled : Bool) : EngineState :=
  { config := config
    eligibilityFilter := { moderationThreshold := config.moderationThreshold }
    scoringConfig := config
    diversityConfig := config
    sponsoredInjectorMax := config.maxSponsoredPerList
    sponsoredEnabled := sponsoredEnabled }

/-- `RecommendationEngine.updateConfig`: merges the overlay into `this.config`
and rebuilds only the scoring engine and the diversity pass; the eligibility
filter and the sponsored injector are left untouched. -/
def updateConfig (e : EngineState) (newConfig : ConfigPatch) : EngineState :=
  { e with
    config := mergeConfig e.config newConfig
    scoringConfig := mergeConfig e.config newConfig
    diversityConfig := mergeConfig e.config newConfig }

/-- A heap of engine instances: object identity for the reconfiguration
claims.  References are list indices. -/
structure EngineHeap where
  engines : List EngineState
deriving DecidableEq

/-- `new RecommendationEngine(...)`: allocates a fresh instance. -/
def newEngine (heap : EngineHeap) (config : RecommendationConfig)
    (sponsoredEnabled : Bool) : EngineHeap × ℕ :=
  ({ engines := heap.engines ++ [mkEngine config sponsoredEnabled] }, heap.engines.length)

/-- `engine.updateConfig(newConfig)` on the instance at `ref`: returns `void`
in the source, i.e. only the heap changes — no allocation. -/
def updateConfigOp (heap : EngineHeap) (ref : ℕ) (newConfig : ConfigPatch) : EngineHeap :=
  match heap.engines[ref]? with
  | some e => { engines := heap.engines.set ref (updateConfig e newConfig) }
  | none => heap

def demoConfigPatch : ConfigPatch :=
  { weights := none
    moderationThreshold := some (1/2)
    recencyDecayDays := none
    creationGracePeriodDays := none
    creationPenaltyMaxDays := none
    sponsoredAmountMultiplier := none
    maxSponsoredBoost := none
    maxResults := none
    maxSponsoredPerList := none
    diversityRules := none }

def demoHeap : EngineHeap := { engines := [mkEngine defaultConfig true] }

/-- **C8 counterexample.** Applying a new threshold to the live engine
produces NO new engine instance (the heap keeps its single slot) and the
original engine's config IS changed in place afterwards. -/
theorem updateConfig_mutates_live_engine :
    (updateConfigOp demoHeap 0 demoConfigPatch).engines.map
        (fun e => e.config.moderationThreshold) = [1/2] ∧
    demoHeap.engines.map (fun e => e.config.moderationThreshold) = [4/5] ∧
    (updateConfigOp demoHeap 0 demoConfigPatch).engines.length =
      demoHeap.engines.length := by
  refine ⟨?_, ?_, rfl⟩ <;>
    norm_num [updateConfigOp, demoHeap, demoConfigPatch, mkEngine, updateConfig,
      mergeConfig, defaultConfig]

/-- **C8 (amended).** `updateConfig` mutates the live engine in place: the
instance count is unchanged (no new engine is created), the targeted engine's
config becomes the merged overlay (a fresh config object) and its scoring and
diversity components are rebuilt from it, while its eligibility filter and
sponsored injector are untouched; all other engine instances are unchanged. -/
theorem updateConfigOp_mutates_in_place (heap : EngineHeap) (ref : ℕ)
    (newConfig : ConfigPatch) (e : EngineState) (h : heap.engines[ref]? = some e) :
    (updateConfigOp heap ref newConfig).engines.length = heap.engines.length ∧
    (updateConfigOp heap ref newConfig).engines[ref]? = some (updateConfig e newConfig) ∧
    (updateConfig e newConfig).config = mergeConfig e.config newConfig ∧
    (updateConfig e newConfig).scoringConfig = mergeConfig e.config newConfig ∧
    (updateConfig e newConfig).diversityConfig = mergeConfig e.config newConfig ∧
    (updateConfig e newConfig).eligibilityFilter = e.eligibilityFilter ∧
    (updateConfig e newConfig).sponsoredInjectorMax = e.sponsoredInjectorMax ∧
    ∀ ref', ref' ≠ ref →
      (updateConfigOp heap ref newConfig).engines[ref']? = heap.engines[ref']? := by
  have href : ref < heap.engines.length := by
    by_contra hlt
    rw [List.getElem?_eq_none (by omega)] at h
    cases h
  rw [updateConfigOp, h]
  refine ⟨by simp, ?_, rfl, rfl, rfl, rfl, rfl, ?_⟩
  · simp [List.getElem?_set_self, href]
  · intro ref' hne
    simp [List.getElem?_set_ne (fun hh => hne hh.symm)]

/-- Witness for C8 (amended) at a concrete heap. -/
theorem updateConfigOp_mutates_in_place_witness :
    demoHeap.engines[0]? = some (mkEngine defaultConfig true) ∧
    ((updateConfigOp demoHeap 0 demoConfigPatch).engines.length =
        demoHeap.engines.length ∧
     (updateConfigOp demoHeap 0 demoConfigPatch).engines[0]? =
        some (updateConfig (mkEngine defaultConfig true) demoConfigPatch) ∧
     (updateConfig (mkEngine defaultConfig true) demoConfigPatch).config =
        mergeConfig (mkEngine defaultConfig true).config demoConfigPatch ∧
     (updateConfig (mkEngine defaultConfig true) demoConfigPatch).scoringConfig =
        mergeConfig (mkEngine defaultConfig true).config demoConfigPatch ∧
     (updateConfig (mkEngine defaultConfig true) demoConfigPatch).diversityConfig =
        mergeConfig (mkEngine defaultConfig true).config demoConfigPatch ∧
     (updateConfig (mkEngine defaultConfig true) demoConfigPatch).eligibilityFilter =
        (mkEngine defaultConfig true).eligibilityFilter ∧
     (updateConfig (mkEngine defaultConfig true) demoConfigPatch).sponsoredInjectorMax =
        (mkEngine defaultConfig true).sponsoredInjectorMax ∧
     (updateConfigOp demoHeap 0 demoConfigPatch).engines[1]? =
       demoHeap.engines[1]?) := by
  have h := updateConfigOp_mutates_in_place demoHeap 0 demoConfigPatch
    (mkEngine defaultConfig true) rfl
  exact ⟨rfl, h.1, h.2.1, h.2.2.1, h.2.2.2.1, h.2.2.2.2.1, h.2.2.2.2.2.1,
    h.2.2.2.2.2.2.1, h.2.2.2.2.2.2.2 1 (by decide)⟩

/-- **C9.** After `updateConfig` — whatever new `moderationThreshold` or
`maxSponsoredPerList` the overlay carries — the eligibility filter and the
sponsored injector still hold the values captured at construction, so
`filterEligible` and `injectSponsored` behave exactly as before the update. -/
theorem updateConfig_preserves_filter_and_injection
    (config : RecommendationConfig) (sponsoredEnabled : Bool) (newConfig : ConfigPatch)
    (items : List Game) (userContext : UserContext)
    (diversifiedGames sponsoredGames : List ScoredGame) :
    (updateConfig (mkEngine config sponsoredEnabled) newConfig).eligibilityFilter =
      (mkEngine config sponsoredEnabled).eligibilityFilter ∧
    (updateConfig (mkEngine config sponsoredEnabled) newConfig).eligibilityFilter =
      { moderationThreshold := config.moderationThreshold } ∧
    (updateConfig (mkEngine config sponsoredEnabled) newConfig).sponsoredInjectorMax =
      config.maxSponsoredPerList ∧
    filterEligible
        (updateConfig (mkEngine config sponsoredEnabled) newConfig).eligibilityFilter
        items userContext =
      filterEligible (mkEngine config sponsoredEnabled).eligibilityFilter items userContext ∧
    injectSponsored
        (updateConfig (mkEngine config sponsoredEnabled) newConfig).sponsoredInjectorMax
        diversifiedGames sponsoredGames =
      injectSponsored (mkEngine config sponsoredEnabled).sponsoredInjectorMax
        diversifiedGames sponsoredGames :=
  ⟨rfl, rfl, rfl, rfl, rfl⟩

/-! ## The main pipeline: `RecommendationEngine.generateRecommendations` -/

def zeroBreakdown : ScoreBreakdown :=
  { genreAffinity := 0
    ageBandPopularity := 0
    engagementSimilarity := 0
    favouriteAffinity := 0
    communityRating := 0
    recencyBoost := 0
    sponsoredBoost := 0
    repetitionPenalty := 0
    creationRecencyPenalty := 0 }

/-- `RecommendationEngine.getPopularGames`: popular games for the age band,
eligibility-filtered, wrapped with score 0 and an all-zero breakdown. -/
def getPopularGames (e : EngineState) (ds : CandidateDataSource)
    (userContext : UserContext) : List ScoredGame :=
  let popularGames := ds.getPopularGamesByAgeBand userContext.ageBand 20
  let eligible := filterEligible e.eligibilityFilter popularGames userContext
  eligible.map (fun game => { game := game, score := 0, breakdown := zeroBreakdown })

/-- `RecommendationEngine.getTrendingGames`: computes the trending chart, then
returns the empty list (placeholder in the source — the chart entries are not
resolved back to game objects). -/
noncomputable def getTrendingGames (_e : EngineState) (cds : ChartDataSource)
    (userContext : UserContext) : List ScoredGame :=
  let _trendingEntries :=
    generateTopTrending cds userContext.ageBand userContext.platform 20
  []

/-- `RecommendationEngine.generateRecommendations`: the six-stage pipeline. -/
noncomputable def generateRecommendations (e : EngineState) (ds : CandidateDataSource)
    (cds : ChartDataSource) (userContext : UserContext) (userHistory : UserHistory)
    (now : ℤ) : List RecommendationBucket :=
  let candidates := generateCandidates ds e.sponsoredEnabled userContext
  let eligible := filterEligible e.eligibilityFilter candidates userContext
  let scored := scoreGames e.scoringConfig eligible userContext userHistory now
  let diversified := diversify e.diversityConfig scored
  let sponsoredGames := scored.filter (fun sg => sg.game.isSponsored)
  let withSponsored := injectSponsored e.sponsoredInjectorMax diversified sponsoredGames
  let popularGames := getPopularGames e ds userContext
  let trendingGames := getTrendingGames e cds userContext
  organizeBuckets withSponsored popularGames trendingGames sponsoredGames

theorem getTrendingGames_eq_nil (e : EngineState) (cds : ChartDataSource)
    (userContext : UserContext) : getTrendingGames e cds userContext = [] := rfl

theorem organizeBuckets_no_trending (recommendedGames popularGames sponsoredGames :
    List ScoredGame) :
    (organizeBuckets recommendedGames popularGames [] sponsoredGames).all
      (fun b => b.id != "new_and_trending") = true := by
  rw [organizeBuckets]
  by_cases h1 : 0 < recommendedGames.length <;>
    by_cases h2 : 0 < popularGames.length <;>
      by_cases h3 : 0 < sponsoredGames.length <;>
        simp [h1, h2, h3]

/-- **C10.** `generateRecommendations` never returns a `new_and_trending`
bucket: the trending helper always returns `[]` and `organizeBuckets` omits
buckets with empty sources. -/
theorem generateRecommendations_no_trending_bucket (e : EngineState)
    (ds : CandidateDataSource) (cds : ChartDataSource) (userContext : UserContext)
    (userHistory : UserHistory) (now : ℤ) :
    (generateRecommendations e ds cds userContext userHistory now).all
      (fun b => b.id != "new_and_trending") = true :=
  organizeBuckets_no_trending _ _ _

/-- **C1.** Every game id in every bucket returned by the pipeline — the
personalized list with its interleaved sponsored items, the popular bucket and
the `sponsored_events` bucket — belongs to a game that passed `isEligible` for
that user context; no stage after the filter re-admits a rejected item. -/
theorem generateRecommendations_all_eligible (e : EngineState)
    (ds : CandidateDataSource) (cds : ChartDataSource) (userContext : UserContext)
    (userHistory : UserHistory) (now : ℤ) :
    ∀ b ∈ generateRecommendations e ds cds userContext userHistory now,
      ∀ gid ∈ b.games,
        ∃ g : Game, isEligible e.eligibilityFilter g userContext = true ∧
          g.gameId = gid := by
  intro b hb gid hgid
  have hkey : generateRecommendations e ds cds userContext userHistory now =
      organizeBuckets
        (injectSponsored e.sponsoredInjectorMax
          (diversify e.diversityConfig
            (scoreGames e.scoringConfig
              (filterEligible e.eligibilityFilter
                (generateCandidates ds e.sponsoredEnabled userContext) userContext)
              userContext userHistory now))
          ((scoreGames e.scoringConfig
              (filterEligible e.eligibilityFilter
                (generateCandidates ds e.sponsoredEnabled userContext) userContext)
              userContext userHistory now).filter (fun sg => sg.game.isSponsored)))
        (getPopularGames e ds userContext)
        (getTrendingGames e cds userContext)
        ((scoreGames e.scoringConfig
            (filterEligible e.eligibilityFilter
              (generateCandidates ds e.sponsoredEnabled userContext) userContext)
            userContext userHistory now).filter (fun sg => sg.game.isSponsored)) := rfl
  rw [hkey] at hb
  have hscored : ∀ sg : ScoredGame,
      sg ∈ scoreGames e.scoringConfig
        (filterEligible e.eligibilityFilter
          (generateCandidates ds e.sponsoredEnabled userContext) userContext)
        userContext userHistory now →
      isEligible e.eligibilityFilter sg.game userContext = true := by
    intro sg hsg
    rcases mem_scoreGames hsg with ⟨g, hg, rfl⟩
    exact (mem_filterEligible hg).2
  rcases mem_organizeBuckets hb with hgames | hgames | hgames | hgames
  · rw [hgames] at hgid
    rcases List.mem_map.mp hgid with ⟨sg, hsg, rfl⟩
    rcases mem_injectSponsored hsg with hsg' | hsg'
    · exact ⟨sg.game, hscored sg (mem_diversify hsg'), rfl⟩
    · exact ⟨sg.game, hscored sg (List.mem_of_mem_filter hsg'), rfl⟩
  · rw [hgames] at hgid
    rcases List.mem_map.mp hgid with ⟨sg, hsg, rfl⟩
    rcases List.mem_map.mp hsg with ⟨g, hg, rfl⟩
    exact ⟨g, (mem_filterEligible hg).2, rfl⟩
  · rw [hgames, getTrendingGames_eq_nil] at hgid
    cases hgid
  · rw [hgames] at hgid
    rcases List.mem_map.mp hgid with ⟨sg, hsg, rfl⟩
    exact ⟨sg.game, hscored sg (List.mem_of_mem_filter hsg), rfl⟩

/-- A configuration whose moderation threshold is a whole rational (so that
concrete eligibility checks evaluate inside the kernel). -/
def demoConfig : RecommendationConfig :=
  { defaultConfig with moderationThreshold := 1 }

def demoCandidateDataSource : CandidateDataSource :=
  { getTopGamesByGenres := fun _ _ => [plainGame "g1"]
    getPopularGamesByAgeBand := fun _ _ => []
    getTrendingGames := fun _ => []
    getEditorialPicks := fun _ => []
    getSponsoredGames := fun _ => [] }

def demoBucket : RecommendationBucket :=
  { id := "recommended_for_you", title := "Recommended For You", games := ["g1"] }

/-- Witness for C1 on a concrete one-candidate pipeline run. -/
theorem generateRecommendations_all_eligible_witness :
    demoBucket ∈ generateRecommendations (mkEngine demoConfig true)
        demoCandidateDataSource emptyChartDataSource plainContext emptyHistory 0 ∧
    "g1" ∈ demoBucket.games ∧
    ∃ g : Game, isEligible (mkEngine demoConfig true).eligibilityFilter g plainContext = true ∧
      g.gameId = "g1" := by
  have hmem : demoBucket ∈ generateRecommendations (mkEngine demoConfig true)
      demoCandidateDataSource emptyChartDataSource plainContext emptyHistory 0 := by
    decide
  have hgid : "g1" ∈ demoBucket.games := by decide
  exact ⟨hmem, hgid,
    generateRecommendations_all_eligible (mkEngine demoConfig true)
      demoCandidateDataSource emptyChartDataSource plainContext emptyHistory 0
      demoBucket hmem "g1" hgid⟩

end GameRec
